import Mathlib

/-
  Verification of the OTP backend's lifecycle engine against its specification.

  The development shallowly embeds the JavaScript sources:
    - src/utils/otpGenerator.js      (OTPGenerator)
    - src/utils/phoneValidator.js    (PhoneValidator)
    - src/services/otpService.js     (OTPService)
    - src/services/loginLinkService.js (LoginLinkService)
    - src/config/database.js         (RedisClient wrapper: get/set/delete/exists)
    - src/constants/otpConstants.js

  Conventions of the embedding:
    - Epoch-millisecond times are Nat (Date.now() is a non-negative integer);
      where the source subtracts times and the sign matters, Int is used.
    - The Redis store is a function from keys to optional values; set/delete
      are pointwise updates.  RedisClient.set JSON-stringifies its value and
      RedisClient.get JSON-parses, so storing an object round-trips to the
      same object while storing a string round-trips to that string; the
      login-link store therefore carries a sum of the two shapes.
    - crypto.createHmac('sha256', secretKey).update(s).digest('hex') is
      modelled as an arbitrary function `hmacHex : String → String` carried
      in the configuration: every behaviour proved here depends on the HMAC
      only through equality of its outputs, so the theorems hold for the
      real keyed SHA-256 instance as well.  Witnesses instantiate it with a
      concrete executable 64-hex-character function.
-/

/-- Decimal digit test, as used by the \d regex class over ASCII input. -/
def isDigitChar (c : Char) : Bool := '0' ≤ c && c ≤ '9'

/-- Value of one hexadecimal digit (parseInt(c, 16)).  A hex digest never
contains other characters, so the fallback 0 is unreachable in the flows
modelled here. -/
def hexVal (c : Char) : Nat :=
  if '0' ≤ c && c ≤ '9' then c.toNat - '0'.toNat
  else if 'a' ≤ c && c ≤ 'f' then c.toNat - 'a'.toNat + 10
  else if 'A' ≤ c && c ≤ 'F' then c.toNat - 'A'.toNat + 10
  else 0

/-- parseInt(s, 16) for a hexadecimal string, as a fold over its digits. -/
def hexToNat (cs : List Char) : Nat := cs.foldl (fun a c => a * 16 + hexVal c) 0

/-- String.prototype.padStart(n, c): left-pad to length n (no-op when the
string is already at least that long). -/
def padStart (s : String) (n : Nat) (c : Char) : String :=
  ⟨List.replicate (n - s.length) c⟩ ++ s

/-- Substring containment (JS String.prototype.includes). -/
def containsSub (sub : List Char) : List Char → Bool
  | [] => sub.isEmpty
  | c :: rest => sub.isPrefixOf (c :: rest) || containsSub sub rest

/-- ASCII whitespace (the inputs handled here contain no exotic whitespace). -/
def isWsChar (c : Char) : Bool := c == ' ' || c == '\t' || c == '\n' || c == '\r'

/-- String.prototype.trim: drop whitespace from both ends. -/
def jsTrim (s : String) : String :=
  ⟨(((s.data.dropWhile isWsChar).reverse).dropWhile isWsChar).reverse⟩

/-!  ## OTPGenerator (src/utils/otpGenerator.js)  -/

/-- DEFAULTS.TIME_WINDOW_MS = 5 * 60 * 1000. -/
def TIME_WINDOW_MS : Nat := 5 * 60 * 1000

/-- Configuration injected into the generator (config.otp): the HMAC secret,
the expiry in minutes (default 10), and the keyed digest function standing
for crypto.createHmac('sha256', secretKey).update(·).digest('hex'). -/
structure OTPConfig where
  secretKey : String
  expiryMinutes : Nat
  hmacHex : String → String

/-- The object returned by OTPGenerator.generateOTP and stored in Redis.
(The constant `isValid: true` field of the source object is omitted: nothing
ever reads it.) -/
structure OTPRecord where
  otp : String
  phoneNumber : String
  timestamp : Nat
  expiryTime : Nat
  expiryMinutes : Nat
  verificationHash : String
deriving Repr, DecidableEq

/-- The data string whose HMAC is the record's verificationHash:
`${phone}:${otp}:${timestamp}:${expiryTime}`. -/
def verificationData (phone otp : String) (timestamp expiryTime : Nat) : String :=
  phone ++ ":" ++ otp ++ ":" ++ toString timestamp ++ ":" ++ toString expiryTime

/-- Digit extraction from the hex digest (otpGenerator.js lines 75-84):
offset from the last hex character mod 10, a 6-character slice starting at
min(offset, len-6), interpreted in base 16, reduced mod 10^6 and zero-padded.
A sha256 hex digest has 64 characters, so the slice is always in bounds. -/
def extractOTP (hmacResult : String) (otpLength : Nat) : String :=
  let lastChar := (hmacResult.data.getLast?).getD ' '
  let offset := hexVal lastChar % 10
  let startPos := min offset (hmacResult.length - otpLength)
  let hexSubstring := (hmacResult.data.drop startPos).take otpLength
  let otpNum := hexToNat hexSubstring % 10 ^ otpLength
  padStart (toString otpNum) otpLength '0'

/-- OTPGenerator.generateOTP.  `timestamp` is the optional argument;
`now` stands for Date.now().  `timestamp || Date.now()` makes an explicit
0 fall back to the clock. -/
def OTPGenerator.generateOTP (cfg : OTPConfig) (phoneNumber : String)
    (timestamp : Option Nat) (now : Nat) : OTPRecord :=
  let currentTime := match timestamp with
    | some t => if t = 0 then now else t
    | none => now
  let timeWindow := currentTime / TIME_WINDOW_MS
  let normalizedPhone := jsTrim phoneNumber
  let dataString := normalizedPhone ++ ":" ++ toString timeWindow ++ ":" ++ cfg.secretKey
  let hmacResult := cfg.hmacHex dataString
  let otp := extractOTP hmacResult 6
  let expiryTime := currentTime + cfg.expiryMinutes * 60 * 1000
  let verificationHash := cfg.hmacHex (verificationData normalizedPhone otp currentTime expiryTime)
  { otp := otp, phoneNumber := normalizedPhone, timestamp := currentTime,
    expiryTime := expiryTime, expiryMinutes := cfg.expiryMinutes,
    verificationHash := verificationHash }

/-- Result shape of OTPGenerator.verifyOTP. -/
structure GenVerifyResult where
  isValid : Bool
  message : String
  expired : Bool
deriving Repr, DecidableEq

def MSG_OTP_NOT_FOUND_GEN : String := "OTP not found or expired"
def MSG_OTP_EXPIRED : String := "OTP has expired"
def MSG_PHONE_MISMATCH : String := "Phone number mismatch"
def MSG_INVALID_OTP : String := "Invalid OTP code"
def MSG_INTEGRITY_FAILED : String := "OTP data integrity check failed"
def MSG_OTP_OK : String := "OTP verified successfully"

/-- OTPGenerator.verifyOTP: absent record, then expiry (now > expiryTime),
then phone match, then code match, then the integrity HMAC, in that order. -/
def OTPGenerator.verifyOTP (cfg : OTPConfig) (phoneNumber inputOTP : String)
    (stored : Option OTPRecord) (now : Nat) : GenVerifyResult :=
  match stored with
  | none => ⟨false, MSG_OTP_NOT_FOUND_GEN, true⟩
  | some d =>
    if d.expiryTime < now then ⟨false, MSG_OTP_EXPIRED, true⟩
    else if d.phoneNumber ≠ phoneNumber then ⟨false, MSG_PHONE_MISMATCH, false⟩
    else if d.otp ≠ inputOTP then ⟨false, MSG_INVALID_OTP, false⟩
    else if cfg.hmacHex (verificationData d.phoneNumber d.otp d.timestamp d.expiryTime)
        ≠ d.verificationHash then ⟨false, MSG_INTEGRITY_FAILED, false⟩
    else ⟨true, MSG_OTP_OK, false⟩

/-- OTPGenerator.generateRedisKey: `otp:` ++ trimmed phone.  The source's
guard (non-empty, at most 20 characters) cannot fire for the pattern-validated
phones that reach it and is omitted. -/
def generateRedisKey (phoneNumber : String) : String := "otp:" ++ jsTrim phoneNumber

/-- OTPGenerator.generateCustomerDataKey: `customer:` ++ trimmed identifier. -/
def generateCustomerDataKey (identifier : String) : String := "customer:" ++ jsTrim identifier

/-- Result of OTPGenerator.getRemainingTime. -/
structure RemainingTime where
  expired : Bool
  remainingSeconds : Nat
  remainingMinutes : Nat
deriving Repr, DecidableEq

/-- OTPGenerator.getRemainingTime: remainingMs = expiryTime - now; expired
iff remainingMs ≤ 0. -/
def getRemainingTime (expiryTime now : Nat) : RemainingTime :=
  if expiryTime ≤ now then ⟨true, 0, 0⟩
  else
    let remainingSeconds := (expiryTime - now) / 1000
    ⟨false, remainingSeconds, remainingSeconds / 60⟩

/-!  ## PhoneValidator (src/utils/phoneValidator.js)  -/

/-- The cleanup regex /[^\d+]/g: keep only digits and '+'. -/
def cleanPhone (s : String) : String := ⟨s.data.filter (fun c => isDigitChar c || c == '+')⟩

/-- phoneNumber.replace(/^\+/, ''): drop at most one leading '+'. -/
def stripPlusL : List Char → List Char
  | '+' :: rest => rest
  | l => l

/-- PhoneValidator.normalizeToInternational on the character list.  The four
cases run in source order; PHONE_CONSTANTS fix the lengths 13 / 11 / 14 / 10.
(Case 3 is subsumed by case 1 but kept for fidelity.) -/
def normalizeToInternationalL (cs : List Char) : Option (List Char) :=
  match cs with
  | [] => none
  | _ =>
    let number := stripPlusL cs
    if "880".data.isPrefixOf number && number.length == 13 then
      some ('+' :: number)
    else if "01".data.isPrefixOf number && number.length == 11 then
      some ("+880".data ++ number.tail)
    else if "+880".data.isPrefixOf cs && cs.length == 14 then
      some cs
    else if number.length == 10 && "1".data.isPrefixOf number then
      some ("+880".data ++ number)
    else
      none

def PhoneValidator.normalizeToInternational (phoneNumber : String) : Option String :=
  (normalizeToInternationalL phoneNumber.data).map (⟨·⟩)

/-- Result of PhoneValidator.validateNormalizedNumber. -/
structure NormCheck where
  isValid : Bool
  message : String
deriving Repr, DecidableEq

/-- PhoneValidator.validateNormalizedNumber: exactly 14 characters, the part
after '+880' starts with '1' and is exactly 10 digits. -/
def validateNormalizedNumberL (normalized : List Char) : NormCheck :=
  if normalized.length ≠ 14 then ⟨false, "Invalid phone number length"⟩
  else
    let mobileNumber := normalized.drop 4
    if ¬ "1".data.isPrefixOf mobileNumber then ⟨false, "Mobile number must start with 1"⟩
    else if ¬ (mobileNumber.length == 10 && mobileNumber.all isDigitChar) then
      ⟨false, "Mobile number must be exactly 10 digits"⟩
    else ⟨true, "Valid Bangladeshi mobile number"⟩

/-- The composition validate runs on the cleaned input: normalize, then
check the normalized form. -/
def normThenValidate (cs : List Char) : Bool :=
  match normalizeToInternationalL cs with
  | some n => (validateNormalizedNumberL n).isValid
  | none => false

/-- Result of PhoneValidator.validate (the operator field, computed only for
display, is omitted: no claim concerns it). -/
structure PVResult where
  isValid : Bool
  message : String
  normalizedNumber : Option String
deriving Repr, DecidableEq

/-- PhoneValidator.validate: trim, reject empty and over-long input, strip to
digits and '+', normalize, then validate the normalized form. -/
def PhoneValidator.validate (phoneNumber : String) : PVResult :=
  let trimmed := jsTrim phoneNumber
  if trimmed = "" then ⟨false, "Phone number cannot be empty", none⟩
  else if 20 < trimmed.length then ⟨false, "Phone number is too long", none⟩
  else
    let cleanNumber := cleanPhone trimmed
    if cleanNumber = "" then ⟨false, "Phone number contains no valid digits", none⟩
    else
      match PhoneValidator.normalizeToInternational cleanNumber with
      | none => ⟨false, "Invalid phone number format", none⟩
      | some normalized =>
        let v := validateNormalizedNumberL normalized.data
        ⟨v.isValid, v.message, if v.isValid then some normalized else none⟩

/-!  ## OTPService (src/services/otpService.js) with otpConstants.js  -/

def OTP_CONFIG_RESEND_WAIT_MINUTES : Nat := 2
def ERR_OTP_NOT_FOUND : String := "OTP not found or has expired"
def ERR_OTP_TOO_EARLY_RESEND : String := "Please wait before requesting another OTP"
def ERR_PHONE_NUMBER_REQUIRED : String := "Phone number is required"
def ERR_INVALID_PHONE_FORMAT : String := "Invalid phone number format"
def ERR_REDIS_CONNECTION : String := "Database connection error"
def ERR_SMS_SERVICE : String := "SMS service temporarily unavailable"
def ERR_EXTERNAL_SERVICE : String := "External service error. Please try again later"
def MSG_OTP_SENT : String := "OTP sent successfully"
def MSG_OTP_VERIFIED_SVC : String := "OTP verified successfully"

/-- VALIDATION.PHONE_PATTERN = /^(\+8801[3-9]\d{8}|01[3-9]\d{8})$/. -/
def phonePatternTest (s : String) : Bool :=
  match s.data with
  | '+' :: '8' :: '8' :: '0' :: '1' :: c :: rest =>
      ('3' ≤ c && c ≤ '9') && rest.length == 8 && rest.all isDigitChar
  | '0' :: '1' :: c :: rest =>
      ('3' ≤ c && c ≤ '9') && rest.length == 8 && rest.all isDigitChar
  | _ => false

/-- VALIDATION.OTP_PATTERN = /^[0-9]{6}$/. -/
def otpPatternTest (s : String) : Bool := s.length == 6 && s.data.all isDigitChar

/-- OTPService.validatePhoneNumber's normalization step: '01…' gets '+88'
prefixed, '880…' gets '+' prefixed, anything else is left as is (the two
startsWith tests are disjoint, so the match mirrors the if/else chain). -/
def svcNormalizePhone (phoneNumber : String) : String :=
  match phoneNumber.data with
  | '0' :: '1' :: _ => "+88" ++ phoneNumber
  | '8' :: '8' :: '0' :: _ => "+" ++ phoneNumber
  | _ => phoneNumber

/-- Outcome of OTPService.validatePhoneNumber. -/
inductive SvcPhoneCheck
  | invalid (message : String)
  | valid (normalizedNumber : String)
deriving Repr, DecidableEq

/-- OTPService.validatePhoneNumber: required, must match PHONE_PATTERN, then
normalized. -/
def svcValidatePhoneNumber (phoneNumber : String) : SvcPhoneCheck :=
  if phoneNumber = "" then .invalid ERR_PHONE_NUMBER_REQUIRED
  else if ¬ phonePatternTest phoneNumber then .invalid ERR_INVALID_PHONE_FORMAT
  else .valid (svcNormalizePhone phoneNumber)

/-- OTPService.validateOTP: required, must be exactly 6 digits. -/
def svcValidateOTP (otp : String) : Option String :=
  if otp = "" then some "OTP is required"
  else if ¬ otpPatternTest otp then some "OTP must be exactly 6 digits"
  else none

/-- OTPService.handleOTPError: map thrown messages mentioning Redis / SMS /
Shopify to the corresponding service errors, otherwise pass the message on. -/
def handleOTPError (message : String) : String :=
  if containsSub "Redis".data message.data then ERR_REDIS_CONNECTION
  else if containsSub "SMS".data message.data then ERR_SMS_SERVICE
  else if containsSub "Shopify".data message.data then ERR_EXTERNAL_SERVICE
  else message

/-- The customer credential snapshot stored under `customer:<identifier>`
(the fields prepareVerificationResponse reads). -/
structure CustomerData where
  email : String
  plainPassword : String
  name : String
  customerId : String
deriving Repr, DecidableEq

/-- The OTP half of the Redis keyspace: `otp:<phone>` keys to OTPRecords. -/
def OtpStore : Type := String → Option OTPRecord

/-- The customer half of the keyspace: `customer:<id>` keys to snapshots. -/
def CustStore : Type := String → Option CustomerData

/-- RedisClient.set for the OTP keyspace (object values round-trip). -/
def setOtp (store : OtpStore) (key : String) (v : OTPRecord) : OtpStore :=
  fun k => if k = key then some v else store k

/-- RedisClient.delete for the OTP keyspace. -/
def deleteOtp (store : OtpStore) (key : String) : OtpStore :=
  fun k => if k = key then none else store k

/-- Response payload of a completed (non-thrown) OTPService.verifyOTP call. -/
structure VerifyResponse where
  success : Bool
  message : String
  phoneNumber : String
  verified : Bool
  expired : Bool
  customer : Option CustomerData
deriving Repr, DecidableEq

/-- The per-call decision logic of OTPService.verifyOTP after validation and
the `await redisClient.get`: the generator check, the response, and whether
the call goes on to `await redisClient.delete`.  Factoring it out lets the
interleaving of two concurrent calls reuse the exact same logic. -/
def verifyCore (cfg : OTPConfig) (normalizedPhone otp : String) (now : Nat)
    (stored : Option OTPRecord) (custStore : CustStore) : VerifyResponse × Bool :=
  match stored with
  | none =>
    ({ success := false, message := ERR_OTP_NOT_FOUND, phoneNumber := normalizedPhone,
       verified := false, expired := true, customer := none }, false)
  | some d =>
    let r := OTPGenerator.verifyOTP cfg normalizedPhone otp (some d) now
    if ¬ r.isValid then
      ({ success := false, message := r.message, phoneNumber := normalizedPhone,
         verified := false, expired := r.expired, customer := none }, false)
    else
      ({ success := true, message := MSG_OTP_VERIFIED_SVC, phoneNumber := normalizedPhone,
         verified := true, expired := false,
         customer := custStore (generateCustomerDataKey normalizedPhone) }, true)

/-- OTPService.verifyOTP.  Validation failures are thrown (and re-thrown via
handleOTPError), modelled as Except.error; completed calls return the
response object.  The store read and the conditional delete are the separate
`get` / `delete` awaits of the source. -/
def OTPService.verifyOTP (cfg : OTPConfig) (phoneNumber otp : String) (now : Nat)
    (otpStore : OtpStore) (custStore : CustStore) :
    Except String VerifyResponse × OtpStore :=
  match svcValidatePhoneNumber phoneNumber with
  | .invalid msg => (.error (handleOTPError msg), otpStore)
  | .valid normalizedPhone =>
    match svcValidateOTP otp with
    | some msg => (.error (handleOTPError msg), otpStore)
    | none =>
      let redisKey := generateRedisKey normalizedPhone
      let stored := otpStore redisKey
      let (resp, doDelete) := verifyCore cfg normalizedPhone otp now stored custStore
      (.ok resp, if doDelete then deleteOtp otpStore redisKey else otpStore)

/-- The get-get-delete-delete interleaving of two concurrent
OTPService.verifyOTP calls for the same phone and code: both `await get`
steps run before either `await delete` (each call's decision and response
use the same verifyCore logic as the sequential service; the source ignores
the boolean result of delete). -/
def interleavedDoubleVerify (cfg : OTPConfig) (phoneNumber otp : String) (now : Nat)
    (st0 : OtpStore) (custStore : CustStore) :
    Except String VerifyResponse × Except String VerifyResponse × OtpStore :=
  match svcValidatePhoneNumber phoneNumber with
  | .invalid msg => (.error (handleOTPError msg), .error (handleOTPError msg), st0)
  | .valid normalizedPhone =>
    match svcValidateOTP otp with
    | some msg => (.error (handleOTPError msg), .error (handleOTPError msg), st0)
    | none =>
      let redisKey := generateRedisKey normalizedPhone
      let storedA := st0 redisKey
      let storedB := st0 redisKey
      let (respA, delA) := verifyCore cfg normalizedPhone otp now storedA custStore
      let st1 := if delA then deleteOtp st0 redisKey else st0
      let (respB, delB) := verifyCore cfg normalizedPhone otp now storedB custStore
      let st2 := if delB then deleteOtp st1 redisKey else st1
      (.ok respA, .ok respB, st2)

/-- The sequential schedule for comparison: the two calls run back to back,
each as the unmodified OTPService.verifyOTP. -/
def sequentialDoubleVerify (cfg : OTPConfig) (phoneNumber otp : String) (now : Nat)
    (st0 : OtpStore) (custStore : CustStore) :
    Except String VerifyResponse × Except String VerifyResponse × OtpStore :=
  let first := OTPService.verifyOTP cfg phoneNumber otp now st0 custStore
  let second := OTPService.verifyOTP cfg phoneNumber otp now first.2 custStore
  (first.1, second.1, second.2)

/-- Result of OTPService.checkResendEligibility.  The source's retryAfter is
`Math.max(0, twoMinutes - timeSinceGeneration) / 1000`, an unfloored number
of seconds; it is carried here in milliseconds. -/
structure ResendCheck where
  allowed : Bool
  remainingTimeSeconds : Nat
  retryAfterMs : Int
deriving Repr, DecidableEq

/-- OTPService.checkResendEligibility: blocked exactly when a record exists,
is not yet expired, and was generated less than RESEND_WAIT_MINUTES ago
(timeSinceGeneration = Date.now() - existingOTP.timestamp, a signed JS
subtraction). -/
def checkResendEligibility (phoneNumber : String) (now : Nat) (store : OtpStore) :
    ResendCheck :=
  match store (generateRedisKey phoneNumber) with
  | none => ⟨true, 0, 0⟩
  | some d =>
    let remainingTime := getRemainingTime d.expiryTime now
    let timeSinceGeneration : Int := (now : Int) - (d.timestamp : Int)
    let twoMinutes : Int := OTP_CONFIG_RESEND_WAIT_MINUTES * 60 * 1000
    if ¬ remainingTime.expired ∧ timeSinceGeneration < twoMinutes then
      ⟨false, remainingTime.remainingSeconds, max 0 (twoMinutes - timeSinceGeneration)⟩
    else ⟨true, 0, 0⟩

/-- The Directory lookup outcome OTPService.checkCustomerExists produces
(its catch branch already degrades errors to exists:false). -/
structure CustomerCheck where
  customerFound : Bool
  error : Option String
deriving Repr, DecidableEq

/-- The Notifier outcome of smsService.sendSingleSMS. -/
structure SmsResult where
  success : Bool
  message : String
deriving Repr, DecidableEq

/-- Response payload of a successful OTPService.sendOTP (prepareOTPResponse;
the human-readable message field is determined by customerExists and omitted). -/
structure SendResponse where
  phoneNumber : String
  customerExists : Bool
  needsSignup : Bool
  expiresIn : Nat
deriving Repr, DecidableEq

/-- OTPService.sendOTP: validate, consult the Directory (outcome passed in:
it is an external collaborator), generate the record, persist it, then
dispatch the SMS (outcome passed in).  A failed dispatch throws
`SMS sending failed: …`, which handleOTPError turns into the SMS service
error — after the record was already stored. -/
def OTPService.sendOTP (cfg : OTPConfig) (phoneNumber : String) (now : Nat)
    (customerCheck : CustomerCheck) (smsResult : SmsResult) (otpStore : OtpStore) :
    Except String SendResponse × OtpStore :=
  match svcValidatePhoneNumber phoneNumber with
  | .invalid msg => (.error (handleOTPError msg), otpStore)
  | .valid normalizedPhone =>
    let otpData := OTPGenerator.generateOTP cfg normalizedPhone none now
    let store1 := setOtp otpStore (generateRedisKey normalizedPhone) otpData
    if ¬ smsResult.success then
      (.error (handleOTPError ("SMS sending failed: " ++ smsResult.message)), store1)
    else
      (.ok { phoneNumber := normalizedPhone,
             customerExists := customerCheck.customerFound,
             needsSignup := ¬ customerCheck.customerFound,
             expiresIn := otpData.expiryMinutes * 60 }, store1)

/-- Response union of OTPService.resendOTP: either the blocked too-early
payload or a sendOTP response. -/
inductive ResendResponse
  | blocked (message : String) (phoneNumber : String) (remainingTimeSeconds : Nat)
      (retryAfterMs : Int)
  | sent (r : SendResponse)
deriving Repr, DecidableEq

/-- OTPService.resendOTP: validate, check eligibility against the stored
record, and either return the too-early payload or run sendOTP on the
normalized number. -/
def OTPService.resendOTP (cfg : OTPConfig) (phoneNumber : String) (now : Nat)
    (customerCheck : CustomerCheck) (smsResult : SmsResult) (otpStore : OtpStore) :
    Except String ResendResponse × OtpStore :=
  match svcValidatePhoneNumber phoneNumber with
  | .invalid msg => (.error (handleOTPError msg), otpStore)
  | .valid normalizedPhone =>
    let canResend := checkResendEligibility normalizedPhone now otpStore
    if ¬ canResend.allowed then
      (.ok (.blocked ERR_OTP_TOO_EARLY_RESEND normalizedPhone
          canResend.remainingTimeSeconds canResend.retryAfterMs), otpStore)
    else
      match OTPService.sendOTP cfg normalizedPhone now customerCheck smsResult otpStore with
      | (.error e, st) => (.error e, st)
      | (.ok r, st) => (.ok (.sent r), st)

/-!  ## LoginLinkService (src/services/loginLinkService.js)

All token material (emails, decimal timestamps, hex nonces and signatures,
the base64url alphabet) is ASCII, so strings are encoded byte-per-char. -/

def b64Alphabet : List Char :=
  "ABCDEFGHIJKLMNOPQRSTUVWXYZabcdefghijklmnopqrstuvwxyz0123456789-_".data

def b64CharOf (n : Nat) : Char := b64Alphabet.getD n '?'

/-- Node Buffer.toString('base64url'): standard base64 over 3-byte groups
with the URL-safe alphabet and no padding. -/
def b64urlEncodeBytes : List Nat → List Char
  | [] => []
  | [b1] => [b64CharOf (b1 / 4), b64CharOf (b1 % 4 * 16)]
  | [b1, b2] => [b64CharOf (b1 / 4), b64CharOf (b1 % 4 * 16 + b2 / 16), b64CharOf (b2 % 16 * 4)]
  | b1 :: b2 :: b3 :: rest =>
    b64CharOf (b1 / 4) :: b64CharOf (b1 % 4 * 16 + b2 / 16) ::
      b64CharOf (b2 % 16 * 4 + b3 / 64) :: b64CharOf (b3 % 64) :: b64urlEncodeBytes rest

/-- Index of a character in the base64url alphabet (Buffer.from(·, 'base64url');
characters outside the alphabet do not occur in the tokens modelled here). -/
def b64Val (c : Char) : Nat := (b64Alphabet.indexOf c)

/-- Regroup 6-bit values into bytes; a trailing lone value carries fewer than
8 bits and contributes no byte. -/
def b64urlDecodeVals : List Nat → List Nat
  | [] => []
  | [_] => []
  | [v1, v2] => [v1 * 4 + v2 / 16]
  | [v1, v2, v3] => [v1 * 4 + v2 / 16, v2 % 16 * 16 + v3 / 4]
  | v1 :: v2 :: v3 :: v4 :: rest =>
    (v1 * 4 + v2 / 16) :: (v2 % 16 * 16 + v3 / 4) :: (v3 % 4 * 64 + v4) :: b64urlDecodeVals rest

def b64urlEncode (s : String) : String := ⟨b64urlEncodeBytes (s.data.map Char.toNat)⟩

def b64urlDecode (s : String) : String :=
  ⟨(b64urlDecodeVals (s.data.map b64Val)).map Char.ofNat⟩

/-- LoginLinkService.generateLoginToken: base64url of
`email:timestamp:randomBytes:signature` where the signature is the HMAC of
`email:timestamp:randomBytes`.  The 32 random bytes rendered as hex are the
`nonceHex` parameter; `now` stands for Date.now(). -/
def generateLoginToken (hmacHex : String → String) (email : String) (now : Nat)
    (nonceHex : String) : String :=
  let tokenData := email ++ ":" ++ toString now ++ ":" ++ nonceHex
  b64urlEncode (tokenData ++ ":" ++ hmacHex tokenData)

/-- The customer object cached inside a stored login link (only its phone is
read back, by the verification flow). -/
structure LinkCustomer where
  phone : Option String
deriving Repr, DecidableEq

/-- The linkData object persisted by LoginLinkService.storeLoginLink. -/
structure LinkData where
  email : String
  customer : Option LinkCustomer
  createdAt : Nat
  expiryTime : Nat
  used : Bool
  attempts : Nat
  usedAt : Option Nat
deriving Repr, DecidableEq

/-- A value handed to RedisClient.set for a login-link key: either the
linkData object (storeLoginLink) or an already-JSON-stringified string
(the re-store inside verifyLoginToken).  get returns the same shape. -/
inductive RedisVal
  | objVal (d : LinkData)
  | strVal (s : String)
deriving Repr, DecidableEq

/-- The login-link keyspace: `login_link:<token>` keys. -/
def LinkStore : Type := String → Option RedisVal

def setLink (store : LinkStore) (key : String) (v : RedisVal) : LinkStore :=
  fun k => if k = key then some v else store k

/-- A rendering of JSON.stringify(linkData).  Only its being a string matters
downstream (every field read on it yields undefined), but it is kept concrete. -/
def stringifyLinkData (d : LinkData) : String :=
  "\x7b\"email\":\"" ++ d.email ++ "\",\"used\":" ++ (if d.used then "true" else "false")
    ++ ",\"expiryTime\":" ++ toString d.expiryTime ++ "\x7d"

/-- LoginLinkService constructor: linkExpiryMinutes = 15. -/
def LINK_EXPIRY_MINUTES : Nat := 15

def loginLinkKey (token : String) : String := "login_link:" ++ token

/-- String.prototype.split(sep) for a one-character separator, structurally
over the character list (JS split never drops empty segments). -/
def splitOnCharAux (sep : Char) : List Char → List Char → List String
  | [], acc => [⟨acc.reverse⟩]
  | c :: rest, acc =>
    if c = sep then ⟨acc.reverse⟩ :: splitOnCharAux sep rest []
    else splitOnCharAux sep rest (c :: acc)

def jsSplit (s : String) (sep : Char) : List String := splitOnCharAux sep s.data []

/-- LoginLinkService.verifyTokenIntegrity: decode the token, require exactly
four `:`-separated parts, require the embedded email to equal the `email`
argument (undefined — `none` — never equals a string part), recompute the
HMAC and compare it with the signature part.  (The source compares the two
hex strings as byte buffers; the tokens exercised here carry the digest
verbatim, for which buffer equality coincides with string equality.) -/
def verifyTokenIntegrity (hmacHex : String → String) (token : String)
    (email : Option String) : Bool :=
  let decoded := b64urlDecode token
  match jsSplit decoded ':' with
  | [tokenEmail, timestamp, randomBytes, signature] =>
    if some tokenEmail ≠ email then false
    else
      let tokenData := tokenEmail ++ ":" ++ timestamp ++ ":" ++ randomBytes
      signature == hmacHex tokenData
  | _ => false

/-- LoginLinkService.storeLoginLink: persist the fresh linkData object under
`login_link:<token>` (TTL = 15 minutes; expiry also recorded explicitly). -/
def storeLoginLink (token email : String) (customer : Option LinkCustomer)
    (now : Nat) (store : LinkStore) : LinkStore :=
  let linkData : LinkData :=
    { email := email, customer := customer, createdAt := now,
      expiryTime := now + LINK_EXPIRY_MINUTES * 60 * 1000,
      used := false, attempts := 0, usedAt := none }
  setLink store (loginLinkKey token) (.objVal linkData)

/-- Result shape of LoginLinkService.verifyLoginToken (isValid, message, and
the error code; the success branch of the source is unreachable, see below). -/
structure LinkVerifyResult where
  isValid : Bool
  message : String
  error : Option String
deriving Repr, DecidableEq

def ERR_TOKEN_NOT_FOUND : String := "TOKEN_NOT_FOUND"
def ERR_TOKEN_ALREADY_USED : String := "TOKEN_ALREADY_USED"
def ERR_TOKEN_EXPIRED : String := "TOKEN_EXPIRED"
def ERR_TOKEN_INTEGRITY_FAILED : String := "TOKEN_INTEGRITY_FAILED"
def ERR_VERIFICATION_ERROR : String := "VERIFICATION_ERROR"

/-- The catch-all failure of verifyLoginToken's try/catch. -/
def linkCaughtError : LinkVerifyResult :=
  ⟨false, "Unable to verify login token. Please try again.", some ERR_VERIFICATION_ERROR⟩

/-- Field reads on the value JSON.parse returned: an object exposes its
fields; a string has none, so every read yields undefined. -/
def RedisVal.usedField : RedisVal → Bool
  | .objVal d => d.used
  | .strVal _ => false

def RedisVal.expiryField : RedisVal → Option Nat
  | .objVal d => some d.expiryTime
  | .strVal _ => none

def RedisVal.emailField : RedisVal → Option String
  | .objVal d => some d.email
  | .strVal _ => none

/-- The check `Date.now() > linkData.expiryTime`: comparison with undefined is false. -/
def jsNowGt (now : Nat) : Option Nat → Bool
  | some e => e < now
  | none => false

/-- LoginLinkService.verifyLoginToken.  Checks run in source order: presence,
`used`, expiry, integrity, then mark-used and re-store.  Two slips of the
source are modelled faithfully:
  * the expiry branch calls `redisClient.del`, a method the Redis wrapper
    does not define (it exposes `delete`), so the TypeError lands in the
    outer catch — the expired record is NOT deleted and the caller sees the
    generic VERIFICATION_ERROR instead of TOKEN_EXPIRED;
  * the re-store passes `JSON.stringify(linkData)` to RedisClient.set, which
    stringifies again, so the store now holds a string (strVal); afterwards
    `customerService.getCustomerData` — a method customerService does not
    define — throws, so the call returns VERIFICATION_ERROR with the
    mark-used write already performed. -/
def verifyLoginToken (hmacHex : String → String) (token : String) (now : Nat)
    (store : LinkStore) : LinkVerifyResult × LinkStore :=
  let redisKey := loginLinkKey token
  match store redisKey with
  | none => (⟨false, "Login link has expired or is invalid", some ERR_TOKEN_NOT_FOUND⟩, store)
  | some linkData =>
    if linkData.usedField then
      (⟨false, "Login link has already been used", some ERR_TOKEN_ALREADY_USED⟩, store)
    else if jsNowGt now linkData.expiryField then
      (linkCaughtError, store)
    else if ¬ verifyTokenIntegrity hmacHex token linkData.emailField then
      (⟨false, "Invalid login token", some ERR_TOKEN_INTEGRITY_FAILED⟩, store)
    else
      match linkData with
      | .strVal _ =>
        -- unreachable: integrity never passes when the email read is undefined
        (⟨false, "Invalid login token", some ERR_TOKEN_INTEGRITY_FAILED⟩, store)
      | .objVal d =>
        let d1 := { d with used := true, attempts := d.attempts + 1, usedAt := some now }
        let store1 := setLink store redisKey (.strVal (stringifyLinkData d1))
        (linkCaughtError, store1)

/-!  ## Concrete sample instances for witnesses and counterexamples

The HMAC parameter is instantiated by an executable stand-in producing a
64-character lowercase hex digest (the shape crypto's sha256 hex digest has).
It plays the role of the keyed hash in closed evaluations only; no theorem
relies on any property of it beyond being a function. -/

def hexDigitChar (n : Nat) : Char := "0123456789abcdef".data.getD n '0'

def mix32 (seed : Nat) (s : String) : Nat :=
  s.data.foldl (fun a c => (a * 131 + c.toNat + seed) % 4294967296) (seed + 97)

def toHex8 (n : Nat) : String :=
  ⟨(List.range 8).map (fun i => hexDigitChar (n / 16 ^ (7 - i) % 16))⟩

def sampleHmac (s : String) : String :=
  String.join ((List.range 8).map (fun i => toHex8 (mix32 i s)))

def sampleCfg : OTPConfig :=
  { secretKey := "test-secret", expiryMinutes := 10, hmacHex := sampleHmac }

def custEmpty : CustStore := fun _ => none

/-- A canonical sample phone. -/
def phoneA : String := "+8801712345678"

/-- The record issue would store for phoneA at epoch-ms 1700000000000. -/
def recA : OTPRecord := OTPGenerator.generateOTP sampleCfg phoneA (some 1700000000000) 0

def stA : OtpStore := fun k => if k = generateRedisKey phoneA then some recA else none

/-- recA with the last digit of its stored code flipped in place (the issued
code is "551547"). -/
def recA_codeFlipped : OTPRecord := { recA with otp := "551548" }

def stA_codeFlipped : OtpStore :=
  fun k => if k = generateRedisKey phoneA then some recA_codeFlipped else none

/-- recA with its timestamp field mutated in place (tag-breaking, code and
phone untouched, still unexpired). -/
def recA_tsTampered : OTPRecord := { recA with timestamp := recA.timestamp + 1 }

def stA_tsTampered : OtpStore :=
  fun k => if k = generateRedisKey phoneA then some recA_tsTampered else none

/-- recA with its expiryTime field mutated into the past. -/
def recA_expiryTampered : OTPRecord := { recA with expiryTime := 5 }

def stA_expiryTampered : OtpStore :=
  fun k => if k = generateRedisKey phoneA then some recA_expiryTampered else none

/-- recA with its phoneNumber field mutated in place. -/
def recA_phoneTampered : OTPRecord := { recA with phoneNumber := "+8801712345999" }

def stA_phoneTampered : OtpStore :=
  fun k => if k = generateRedisKey phoneA then some recA_phoneTampered else none

/-- A stored record for the resend-boundary analysis: issued at 1000000,
expiring at 1600000. -/
def recB : OTPRecord :=
  { otp := "123456", phoneNumber := phoneA, timestamp := 1000000,
    expiryTime := 1600000, expiryMinutes := 10, verificationHash := "h" }

def stB : OtpStore := fun k => if k = generateRedisKey phoneA then some recB else none

def emailA : String := "a@b.c"

/-- A concrete well-formed login token (email, timestamp 17, nonce "ab"). -/
def tokenA : String := generateLoginToken sampleHmac emailA 17 "ab"

/-- The store right after LoginLinkService stored tokenA at time 1000. -/
def lstA : LinkStore := storeLoginLink tokenA emailA (some ⟨some phoneA⟩) 1000 (fun _ => none)

/-- The linkData object lstA holds for tokenA. -/
def dA : LinkData :=
  { email := emailA, customer := some ⟨some phoneA⟩, createdAt := 1000,
    expiryTime := 1000 + LINK_EXPIRY_MINUTES * 60 * 1000,
    used := false, attempts := 0, usedAt := none }

/-- A stored, unused login-link record whose expiryTime (100) is in the past. -/
def dExpired : LinkData :=
  { email := emailA, customer := none, createdAt := 0, expiryTime := 100,
    used := false, attempts := 0, usedAt := none }

def lstExpired : LinkStore := setLink (fun _ => none) (loginLinkKey tokenA) (.objVal dExpired)

/-- Spec-side description of a valid mobile part: 10 digits, first digit 1. -/
def mobileOkB (m : List Char) : Bool :=
  m.length == 10 && m.all isDigitChar && "1".data.isPrefixOf m

/-- Spec-side description of the canonical form: '+880' then a valid mobile
part. -/
def isCanonicalBD (n : List Char) : Bool :=
  match n with
  | '+' :: '8' :: '8' :: '0' :: m => mobileOkB m
  | _ => false

/-!  ## Lemmas about validation and normalization  -/

theorem phonePatternTest_ne_empty {s : String} (h : phonePatternTest s = true) : s ≠ "" := by
  intro he; subst he; exact absurd h (by decide)

theorem otpPatternTest_ne_empty {s : String} (h : otpPatternTest s = true) : s ≠ "" := by
  intro he; subst he; exact absurd h (by decide)

theorem svcValidatePhoneNumber_of_pattern {s : String} (h : phonePatternTest s = true) :
    svcValidatePhoneNumber s = .valid (svcNormalizePhone s) := by
  simp [svcValidatePhoneNumber, phonePatternTest_ne_empty h, h]

theorem svcValidateOTP_of_pattern {s : String} (h : otpPatternTest s = true) :
    svcValidateOTP s = none := by
  simp [svcValidateOTP, otpPatternTest_ne_empty h, h]

theorem phonePattern_shape {s : String} (h : phonePatternTest s = true) :
    (∃ c rest, s.data = '+' :: '8' :: '8' :: '0' :: '1' :: c :: rest ∧
      (('3' ≤ c && c ≤ '9') && rest.length == 8 && rest.all isDigitChar) = true)
  ∨ (∃ c rest, s.data = '0' :: '1' :: c :: rest ∧
      (('3' ≤ c && c ≤ '9') && rest.length == 8 && rest.all isDigitChar) = true) := by
  unfold phonePatternTest at h
  split at h
  next c rest heq => exact Or.inl ⟨c, rest, heq, h⟩
  next c rest heq => exact Or.inr ⟨c, rest, heq, h⟩
  next => exact absurd h (by simp)

theorem svcNormalizePhone_of_plus {s : String} {t : List Char} (hd : s.data = '+' :: t) :
    svcNormalizePhone s = s := by
  unfold svcNormalizePhone
  split
  next heq => rw [hd] at heq; cases heq
  next heq => rw [hd] at heq; cases heq
  next => rfl

theorem svcNormalizePhone_of_01 {s : String} {t : List Char} (hd : s.data = '0' :: '1' :: t) :
    svcNormalizePhone s = "+88" ++ s := by
  unfold svcNormalizePhone
  split
  next => rfl
  next heq => rw [hd] at heq; cases heq
  next hno1 hno2 => exact absurd hd (hno1 t)

theorem phonePatternTest_svcNormalize {s : String} (h : phonePatternTest s = true) :
    phonePatternTest (svcNormalizePhone s) = true := by
  rcases phonePattern_shape h with ⟨c, rest, hd, _⟩ | ⟨c, rest, hd, hc⟩
  · rw [svcNormalizePhone_of_plus hd]; exact h
  · rw [svcNormalizePhone_of_01 hd]
    have hs : s = ⟨'0' :: '1' :: c :: rest⟩ := String.ext hd
    subst hs
    exact hc

theorem svcNormalizePhone_idem {s : String} (h : phonePatternTest s = true) :
    svcNormalizePhone (svcNormalizePhone s) = svcNormalizePhone s := by
  rcases phonePattern_shape h with ⟨c, rest, hd, _⟩ | ⟨c, rest, hd, _⟩
  · rw [svcNormalizePhone_of_plus hd]; exact svcNormalizePhone_of_plus hd
  · rw [svcNormalizePhone_of_01 hd]
    exact svcNormalizePhone_of_plus (t := '8' :: '8' :: s.data) rfl

/-!  ## Lemmas about OTPService.verifyOTP  -/

theorem verifyOTP_success (cfg : OTPConfig) (phoneRaw : String) (now : Nat)
    (otpStore : OtpStore) (custStore : CustStore) (d : OTPRecord)
    (hpat : phonePatternTest phoneRaw = true)
    (hstored : otpStore (generateRedisKey (svcNormalizePhone phoneRaw)) = some d)
    (hphone : d.phoneNumber = svcNormalizePhone phoneRaw)
    (hotp6 : otpPatternTest d.otp = true)
    (hlive : now ≤ d.expiryTime)
    (hhash : cfg.hmacHex (verificationData d.phoneNumber d.otp d.timestamp d.expiryTime)
      = d.verificationHash) :
    OTPService.verifyOTP cfg phoneRaw d.otp now otpStore custStore =
      (.ok { success := true, message := MSG_OTP_VERIFIED_SVC,
             phoneNumber := svcNormalizePhone phoneRaw, verified := true, expired := false,
             customer := custStore (generateCustomerDataKey (svcNormalizePhone phoneRaw)) },
       deleteOtp otpStore (generateRedisKey (svcNormalizePhone phoneRaw))) := by
  unfold OTPService.verifyOTP
  rw [svcValidatePhoneNumber_of_pattern hpat, svcValidateOTP_of_pattern hotp6]
  rw [hphone] at hhash
  simp [verifyCore, hstored, OTPGenerator.verifyOTP, Nat.not_lt.mpr hlive, hphone, hhash]

theorem verifyOTP_notFound (cfg : OTPConfig) (phoneRaw otp : String) (now : Nat)
    (otpStore : OtpStore) (custStore : CustStore)
    (hpat : phonePatternTest phoneRaw = true)
    (hotp6 : otpPatternTest otp = true)
    (hnone : otpStore (generateRedisKey (svcNormalizePhone phoneRaw)) = none) :
    OTPService.verifyOTP cfg phoneRaw otp now otpStore custStore =
      (.ok { success := false, message := ERR_OTP_NOT_FOUND,
             phoneNumber := svcNormalizePhone phoneRaw, verified := false, expired := true,
             customer := none }, otpStore) := by
  unfold OTPService.verifyOTP
  rw [svcValidatePhoneNumber_of_pattern hpat, svcValidateOTP_of_pattern hotp6]
  simp [verifyCore, hnone]

/-- Claim C1: for every phone number holding a live, untampered OTPRecord,
verify(phone, stored code) succeeds and deletes the record, so an immediately
repeated verify with the same phone and code fails with the
not-found/expired error: a dispatched code is accepted exactly once. -/
theorem otp_roundtrip_single_use (cfg : OTPConfig) (phoneRaw : String) (now now2 : Nat)
    (otpStore : OtpStore) (custStore : CustStore) (d : OTPRecord)
    (hpat : phonePatternTest phoneRaw = true)
    (hstored : otpStore (generateRedisKey (svcNormalizePhone phoneRaw)) = some d)
    (hphone : d.phoneNumber = svcNormalizePhone phoneRaw)
    (hotp6 : otpPatternTest d.otp = true)
    (hlive : now ≤ d.expiryTime)
    (hhash : cfg.hmacHex (verificationData d.phoneNumber d.otp d.timestamp d.expiryTime)
      = d.verificationHash) :
    ∃ r1 r2 : VerifyResponse,
      (OTPService.verifyOTP cfg phoneRaw d.otp now otpStore custStore).1 = .ok r1
      ∧ r1.success = true ∧ r1.verified = true
      ∧ (OTPService.verifyOTP cfg phoneRaw d.otp now otpStore custStore).2
          (generateRedisKey (svcNormalizePhone phoneRaw)) = none
      ∧ (OTPService.verifyOTP cfg phoneRaw d.otp now2
          (OTPService.verifyOTP cfg phoneRaw d.otp now otpStore custStore).2 custStore).1 = .ok r2
      ∧ r2.success = false ∧ r2.message = ERR_OTP_NOT_FOUND ∧ r2.expired = true := by
  have h2 := verifyOTP_notFound cfg phoneRaw d.otp now2
    (deleteOtp otpStore (generateRedisKey (svcNormalizePhone phoneRaw))) custStore hpat hotp6
    (by simp [deleteOtp])
  rw [verifyOTP_success cfg phoneRaw now otpStore custStore d hpat hstored hphone hotp6 hlive hhash]
  have h3 : ∃ r2 : VerifyResponse,
      (OTPService.verifyOTP cfg phoneRaw d.otp now2
        (deleteOtp otpStore (generateRedisKey (svcNormalizePhone phoneRaw))) custStore).1 = .ok r2
      ∧ r2.success = false ∧ r2.message = ERR_OTP_NOT_FOUND ∧ r2.expired = true := by
    rw [h2]; exact ⟨_, rfl, rfl, rfl, rfl⟩
  obtain ⟨r2, hr1, hr2, hr3, hr4⟩ := h3
  exact ⟨_, r2, rfl, rfl, rfl, by simp [deleteOtp], hr1, hr2, hr3, hr4⟩

set_option maxRecDepth 20000 in
/-- Witness for C1 at the concrete sample: phoneA's live record stA, the
issued code recA.otp, clock just after issuance. -/
theorem otp_roundtrip_single_use_witness :
    (phonePatternTest phoneA = true)
    ∧ (stA (generateRedisKey (svcNormalizePhone phoneA)) = some recA)
    ∧ (recA.phoneNumber = svcNormalizePhone phoneA)
    ∧ (otpPatternTest recA.otp = true)
    ∧ (1700000000001 ≤ recA.expiryTime)
    ∧ (sampleCfg.hmacHex (verificationData recA.phoneNumber recA.otp recA.timestamp recA.expiryTime)
        = recA.verificationHash)
    ∧ (∃ r1 r2 : VerifyResponse,
        (OTPService.verifyOTP sampleCfg phoneA recA.otp 1700000000001 stA custEmpty).1 = .ok r1
        ∧ r1.success = true ∧ r1.verified = true
        ∧ (OTPService.verifyOTP sampleCfg phoneA recA.otp 1700000000001 stA custEmpty).2
            (generateRedisKey (svcNormalizePhone phoneA)) = none
        ∧ (OTPService.verifyOTP sampleCfg phoneA recA.otp 1700000000002
            (OTPService.verifyOTP sampleCfg phoneA recA.otp 1700000000001 stA custEmpty).2
            custEmpty).1 = .ok r2
        ∧ r2.success = false ∧ r2.message = ERR_OTP_NOT_FOUND ∧ r2.expired = true) :=
  ⟨by decide, by decide, by decide, by decide, by decide, by decide,
    otp_roundtrip_single_use sampleCfg phoneA 1700000000001 1700000000002 stA custEmpty recA
      (by decide) (by decide) (by decide) (by decide) (by decide) (by decide)⟩

theorem verifyOTP_invalidCode (cfg : OTPConfig) (phoneRaw wrongOtp : String) (now : Nat)
    (otpStore : OtpStore) (custStore : CustStore) (d : OTPRecord)
    (hpat : phonePatternTest phoneRaw = true)
    (hstored : otpStore (generateRedisKey (svcNormalizePhone phoneRaw)) = some d)
    (hphone : d.phoneNumber = svcNormalizePhone phoneRaw)
    (hotp6w : otpPatternTest wrongOtp = true)
    (hwrong : d.otp ≠ wrongOtp)
    (hlive : now ≤ d.expiryTime) :
    OTPService.verifyOTP cfg phoneRaw wrongOtp now otpStore custStore =
      (.ok { success := false, message := MSG_INVALID_OTP,
             phoneNumber := svcNormalizePhone phoneRaw, verified := false, expired := false,
             customer := none }, otpStore) := by
  unfold OTPService.verifyOTP
  rw [svcValidatePhoneNumber_of_pattern hpat, svcValidateOTP_of_pattern hotp6w]
  simp [verifyCore, hstored, OTPGenerator.verifyOTP, Nat.not_lt.mpr hlive, hphone, hwrong]

theorem verifyOTP_integrityFailed (cfg : OTPConfig) (phoneRaw : String) (now : Nat)
    (otpStore : OtpStore) (custStore : CustStore) (d : OTPRecord)
    (hpat : phonePatternTest phoneRaw = true)
    (hstored : otpStore (generateRedisKey (svcNormalizePhone phoneRaw)) = some d)
    (hphone : d.phoneNumber = svcNormalizePhone phoneRaw)
    (hotp6 : otpPatternTest d.otp = true)
    (hlive : now ≤ d.expiryTime)
    (hbad : cfg.hmacHex (verificationData d.phoneNumber d.otp d.timestamp d.expiryTime)
      ≠ d.verificationHash) :
    OTPService.verifyOTP cfg phoneRaw d.otp now otpStore custStore =
      (.ok { success := false, message := MSG_INTEGRITY_FAILED,
             phoneNumber := svcNormalizePhone phoneRaw, verified := false, expired := false,
             customer := none }, otpStore) := by
  unfold OTPService.verifyOTP
  rw [svcValidatePhoneNumber_of_pattern hpat, svcValidateOTP_of_pattern hotp6]
  rw [hphone] at hbad
  simp [verifyCore, hstored, OTPGenerator.verifyOTP, Nat.not_lt.mpr hlive, hphone, hbad]

theorem verifyOTP_expired (cfg : OTPConfig) (phoneRaw otp : String) (now : Nat)
    (otpStore : OtpStore) (custStore : CustStore) (d : OTPRecord)
    (hpat : phonePatternTest phoneRaw = true)
    (hstored : otpStore (generateRedisKey (svcNormalizePhone phoneRaw)) = some d)
    (hotp6 : otpPatternTest otp = true)
    (hexp : d.expiryTime < now) :
    OTPService.verifyOTP cfg phoneRaw otp now otpStore custStore =
      (.ok { success := false, message := MSG_OTP_EXPIRED,
             phoneNumber := svcNormalizePhone phoneRaw, verified := false, expired := true,
             customer := none }, otpStore) := by
  unfold OTPService.verifyOTP
  rw [svcValidatePhoneNumber_of_pattern hpat, svcValidateOTP_of_pattern hotp6]
  simp [verifyCore, hstored, OTPGenerator.verifyOTP, hexp]

theorem verifyOTP_phoneMismatch (cfg : OTPConfig) (phoneRaw otp : String) (now : Nat)
    (otpStore : OtpStore) (custStore : CustStore) (d : OTPRecord)
    (hpat : phonePatternTest phoneRaw = true)
    (hstored : otpStore (generateRedisKey (svcNormalizePhone phoneRaw)) = some d)
    (hotp6 : otpPatternTest otp = true)
    (hlive : now ≤ d.expiryTime)
    (hph : d.phoneNumber ≠ svcNormalizePhone phoneRaw) :
    OTPService.verifyOTP cfg phoneRaw otp now otpStore custStore =
      (.ok { success := false, message := MSG_PHONE_MISMATCH,
             phoneNumber := svcNormalizePhone phoneRaw, verified := false, expired := false,
             customer := none }, otpStore) := by
  unfold OTPService.verifyOTP
  rw [svcValidatePhoneNumber_of_pattern hpat, svcValidateOTP_of_pattern hotp6]
  simp [verifyCore, hstored, OTPGenerator.verifyOTP, Nat.not_lt.mpr hlive, hph]

/-- Claim C4: a wrong (well-formed) candidate code fails with the
invalid-code error and leaves the stored record completely unchanged, so a
subsequent verify with the correct code before expiry still succeeds. -/
theorem wrong_guess_leaves_record_intact (cfg : OTPConfig) (phoneRaw wrongOtp : String)
    (now now2 : Nat) (otpStore : OtpStore) (custStore : CustStore) (d : OTPRecord)
    (hpat : phonePatternTest phoneRaw = true)
    (hstored : otpStore (generateRedisKey (svcNormalizePhone phoneRaw)) = some d)
    (hphone : d.phoneNumber = svcNormalizePhone phoneRaw)
    (hotp6w : otpPatternTest wrongOtp = true)
    (hwrong : d.otp ≠ wrongOtp)
    (hlive : now ≤ d.expiryTime)
    (hotp6 : otpPatternTest d.otp = true)
    (hlive2 : now2 ≤ d.expiryTime)
    (hhash : cfg.hmacHex (verificationData d.phoneNumber d.otp d.timestamp d.expiryTime)
      = d.verificationHash) :
    ∃ r1 r2 : VerifyResponse,
      (OTPService.verifyOTP cfg phoneRaw wrongOtp now otpStore custStore).1 = .ok r1
      ∧ r1.success = false ∧ r1.message = MSG_INVALID_OTP
      ∧ (OTPService.verifyOTP cfg phoneRaw wrongOtp now otpStore custStore).2 = otpStore
      ∧ (OTPService.verifyOTP cfg phoneRaw d.otp now2
          (OTPService.verifyOTP cfg phoneRaw wrongOtp now otpStore custStore).2 custStore).1
          = .ok r2
      ∧ r2.success = true ∧ r2.verified = true := by
  have h1 := verifyOTP_invalidCode cfg phoneRaw wrongOtp now otpStore custStore d
    hpat hstored hphone hotp6w hwrong hlive
  have h2 := verifyOTP_success cfg phoneRaw now2 otpStore custStore d
    hpat hstored hphone hotp6 hlive2 hhash
  rw [h1]
  have h3 : ∃ r2 : VerifyResponse,
      (OTPService.verifyOTP cfg phoneRaw d.otp now2 otpStore custStore).1 = .ok r2
      ∧ r2.success = true ∧ r2.verified = true := by
    rw [h2]; exact ⟨_, rfl, rfl, rfl⟩
  obtain ⟨r2, ha, hb, hc⟩ := h3
  exact ⟨_, r2, rfl, rfl, rfl, rfl, ha, hb, hc⟩

set_option maxRecDepth 20000 in
/-- Witness for C4: the wrong guess "000000" against phoneA's live record
(issued code "551547"), then the correct code still verifies. -/
theorem wrong_guess_leaves_record_intact_witness :
    (phonePatternTest phoneA = true)
    ∧ (stA (generateRedisKey (svcNormalizePhone phoneA)) = some recA)
    ∧ (recA.phoneNumber = svcNormalizePhone phoneA)
    ∧ (otpPatternTest "000000" = true)
    ∧ (recA.otp ≠ "000000")
    ∧ (1700000000001 ≤ recA.expiryTime)
    ∧ (otpPatternTest recA.otp = true)
    ∧ (1700000000002 ≤ recA.expiryTime)
    ∧ (sampleCfg.hmacHex (verificationData recA.phoneNumber recA.otp recA.timestamp recA.expiryTime)
        = recA.verificationHash)
    ∧ (∃ r1 r2 : VerifyResponse,
        (OTPService.verifyOTP sampleCfg phoneA "000000" 1700000000001 stA custEmpty).1 = .ok r1
        ∧ r1.success = false ∧ r1.message = MSG_INVALID_OTP
        ∧ (OTPService.verifyOTP sampleCfg phoneA "000000" 1700000000001 stA custEmpty).2 = stA
        ∧ (OTPService.verifyOTP sampleCfg phoneA recA.otp 1700000000002
            (OTPService.verifyOTP sampleCfg phoneA "000000" 1700000000001 stA custEmpty).2
            custEmpty).1 = .ok r2
        ∧ r2.success = true ∧ r2.verified = true) :=
  ⟨by decide, by decide, by decide, by decide, by decide, by decide, by decide, by decide,
    by decide,
    wrong_guess_leaves_record_intact sampleCfg phoneA "000000" 1700000000001 1700000000002
      stA custEmpty recA (by decide) (by decide) (by decide) (by decide) (by decide)
      (by decide) (by decide) (by decide) (by decide)⟩

/-- Claim C3 (amended): the outcome of verifying a tampered stored record
follows the source's check order — expiry, then phone, then code, then
integrity.  Moving expiresAt into the past gives the expired error; mutating
the stored phone gives the phone-mismatch error; mutating the stored code
gives the invalid-code error when the originally issued code is presented;
only a tag-breaking mutation that leaves the record unexpired with matching
phone and code (for example, mutating the timestamp) gives the
integrity-failure error.  None of the first three paths reaches the
integrity check. -/
theorem otp_tamper_detection (cfg : OTPConfig) (phoneRaw origCode : String) (now : Nat)
    (custStore : CustStore)
    (hpat : phonePatternTest phoneRaw = true)
    (horig : otpPatternTest origCode = true) :
    (∀ (otpStore : OtpStore) (d : OTPRecord),
      otpStore (generateRedisKey (svcNormalizePhone phoneRaw)) = some d →
      d.phoneNumber = svcNormalizePhone phoneRaw → now ≤ d.expiryTime → d.otp ≠ origCode →
      ∃ r : VerifyResponse,
        (OTPService.verifyOTP cfg phoneRaw origCode now otpStore custStore).1 = .ok r
        ∧ r.message = MSG_INVALID_OTP ∧ r.message ≠ MSG_INTEGRITY_FAILED)
  ∧ (∀ (otpStore : OtpStore) (d : OTPRecord),
      otpStore (generateRedisKey (svcNormalizePhone phoneRaw)) = some d →
      d.phoneNumber = svcNormalizePhone phoneRaw → now ≤ d.expiryTime → d.otp = origCode →
      cfg.hmacHex (verificationData d.phoneNumber d.otp d.timestamp d.expiryTime)
        ≠ d.verificationHash →
      ∃ r : VerifyResponse,
        (OTPService.verifyOTP cfg phoneRaw origCode now otpStore custStore).1 = .ok r
        ∧ r.message = MSG_INTEGRITY_FAILED)
  ∧ (∀ (otpStore : OtpStore) (d : OTPRecord),
      otpStore (generateRedisKey (svcNormalizePhone phoneRaw)) = some d →
      d.expiryTime < now →
      ∃ r : VerifyResponse,
        (OTPService.verifyOTP cfg phoneRaw origCode now otpStore custStore).1 = .ok r
        ∧ r.message = MSG_OTP_EXPIRED ∧ r.message ≠ MSG_INTEGRITY_FAILED)
  ∧ (∀ (otpStore : OtpStore) (d : OTPRecord),
      otpStore (generateRedisKey (svcNormalizePhone phoneRaw)) = some d →
      now ≤ d.expiryTime → d.phoneNumber ≠ svcNormalizePhone phoneRaw →
      ∃ r : VerifyResponse,
        (OTPService.verifyOTP cfg phoneRaw origCode now otpStore custStore).1 = .ok r
        ∧ r.message = MSG_PHONE_MISMATCH ∧ r.message ≠ MSG_INTEGRITY_FAILED) := by
  refine ⟨?_, ?_, ?_, ?_⟩
  · intro otpStore d hstored hphone hlive hneq
    rw [verifyOTP_invalidCode cfg phoneRaw origCode now otpStore custStore d
      hpat hstored hphone horig hneq hlive]
    exact ⟨_, rfl, rfl, show MSG_INVALID_OTP ≠ MSG_INTEGRITY_FAILED by decide⟩
  · intro otpStore d hstored hphone hlive hotp hbad
    rw [← hotp]
    rw [verifyOTP_integrityFailed cfg phoneRaw now otpStore custStore d
      hpat hstored hphone (by rw [hotp]; exact horig) hlive hbad]
    exact ⟨_, rfl, rfl⟩
  · intro otpStore d hstored hexp
    rw [verifyOTP_expired cfg phoneRaw origCode now otpStore custStore d
      hpat hstored horig hexp]
    exact ⟨_, rfl, rfl, show MSG_OTP_EXPIRED ≠ MSG_INTEGRITY_FAILED by decide⟩
  · intro otpStore d hstored hlive hph
    rw [verifyOTP_phoneMismatch cfg phoneRaw origCode now otpStore custStore d
      hpat hstored horig hlive hph]
    exact ⟨_, rfl, rfl, show MSG_PHONE_MISMATCH ≠ MSG_INTEGRITY_FAILED by decide⟩

set_option maxRecDepth 20000 in
/-- Counterexample to C3 as stated: flipping one digit of the stored code
("551547" became "551548" in the store, the tag untouched) makes verify with
the originally issued code "551547" fail with the invalid-code error, not the
integrity-failure error. -/
theorem otp_tamper_counterexample :
    recA.otp = "551547"
    ∧ stA_codeFlipped (generateRedisKey (svcNormalizePhone phoneA))
        = some { recA with otp := "551548" }
    ∧ (OTPService.verifyOTP sampleCfg phoneA "551547" 1700000000001 stA_codeFlipped
        custEmpty).1.toOption.map (fun r => r.message) = some MSG_INVALID_OTP
    ∧ MSG_INVALID_OTP ≠ MSG_INTEGRITY_FAILED := by
  refine ⟨by decide, by decide, ?_, by decide⟩
  decide

set_option maxRecDepth 20000 in
/-- Witness for C3 (amended) at the concrete sample: one store per mutated
field — code flipped, timestamp bumped, expiryTime moved into the past,
phoneNumber changed — each applied to its branch of the theorem. -/
theorem otp_tamper_detection_witness :
    (phonePatternTest phoneA = true)
    ∧ (otpPatternTest "551547" = true)
    ∧ (stA_codeFlipped (generateRedisKey (svcNormalizePhone phoneA)) = some recA_codeFlipped)
    ∧ (recA_codeFlipped.phoneNumber = svcNormalizePhone phoneA)
    ∧ (1700000000001 ≤ recA_codeFlipped.expiryTime)
    ∧ (recA_codeFlipped.otp ≠ "551547")
    ∧ (∃ r : VerifyResponse,
        (OTPService.verifyOTP sampleCfg phoneA "551547" 1700000000001 stA_codeFlipped
          custEmpty).1 = .ok r
        ∧ r.message = MSG_INVALID_OTP ∧ r.message ≠ MSG_INTEGRITY_FAILED)
    ∧ (stA_tsTampered (generateRedisKey (svcNormalizePhone phoneA)) = some recA_tsTampered)
    ∧ (recA_tsTampered.otp = "551547")
    ∧ (sampleCfg.hmacHex (verificationData recA_tsTampered.phoneNumber recA_tsTampered.otp
        recA_tsTampered.timestamp recA_tsTampered.expiryTime) ≠ recA_tsTampered.verificationHash)
    ∧ (∃ r : VerifyResponse,
        (OTPService.verifyOTP sampleCfg phoneA "551547" 1700000000001 stA_tsTampered
          custEmpty).1 = .ok r
        ∧ r.message = MSG_INTEGRITY_FAILED)
    ∧ (stA_expiryTampered (generateRedisKey (svcNormalizePhone phoneA))
        = some recA_expiryTampered)
    ∧ (recA_expiryTampered.expiryTime < 1700000000001)
    ∧ (∃ r : VerifyResponse,
        (OTPService.verifyOTP sampleCfg phoneA "551547" 1700000000001 stA_expiryTampered
          custEmpty).1 = .ok r
        ∧ r.message = MSG_OTP_EXPIRED ∧ r.message ≠ MSG_INTEGRITY_FAILED)
    ∧ (stA_phoneTampered (generateRedisKey (svcNormalizePhone phoneA))
        = some recA_phoneTampered)
    ∧ (recA_phoneTampered.phoneNumber ≠ svcNormalizePhone phoneA)
    ∧ (∃ r : VerifyResponse,
        (OTPService.verifyOTP sampleCfg phoneA "551547" 1700000000001 stA_phoneTampered
          custEmpty).1 = .ok r
        ∧ r.message = MSG_PHONE_MISMATCH ∧ r.message ≠ MSG_INTEGRITY_FAILED) :=
  ⟨by decide, by decide, by decide, by decide, by decide, by decide,
    (otp_tamper_detection sampleCfg phoneA "551547" 1700000000001 custEmpty
      (by decide) (by decide)).1 stA_codeFlipped recA_codeFlipped
      (by decide) (by decide) (by decide) (by decide),
    by decide, by decide, by decide,
    (otp_tamper_detection sampleCfg phoneA "551547" 1700000000001 custEmpty
      (by decide) (by decide)).2.1 stA_tsTampered recA_tsTampered
      (by decide) (by decide) (by decide) (by decide) (by decide),
    by decide, by decide,
    (otp_tamper_detection sampleCfg phoneA "551547" 1700000000001 custEmpty
      (by decide) (by decide)).2.2.1 stA_expiryTampered recA_expiryTampered
      (by decide) (by decide),
    by decide, by decide,
    (otp_tamper_detection sampleCfg phoneA "551547" 1700000000001 custEmpty
      (by decide) (by decide)).2.2.2 stA_phoneTampered recA_phoneTampered
      (by decide) (by decide) (by decide)⟩

/-- Claim C6: code derivation is deterministic within a time window — for a
fixed configuration and phone, any two clock readings (or any two explicit
nonzero timestamps) with the same floor(t / windowDurationMs) produce the
same code. -/
theorem derive_code_window_deterministic (cfg : OTPConfig) (phone : String) :
    (∀ now1 now2 : Nat, now1 / TIME_WINDOW_MS = now2 / TIME_WINDOW_MS →
      (OTPGenerator.generateOTP cfg phone none now1).otp
        = (OTPGenerator.generateOTP cfg phone none now2).otp)
  ∧ (∀ t1 t2 now1 now2 : Nat, t1 ≠ 0 → t2 ≠ 0 →
      t1 / TIME_WINDOW_MS = t2 / TIME_WINDOW_MS →
      (OTPGenerator.generateOTP cfg phone (some t1) now1).otp
        = (OTPGenerator.generateOTP cfg phone (some t2) now2).otp) := by
  have enone : ∀ now : Nat, (OTPGenerator.generateOTP cfg phone none now).otp
      = extractOTP (cfg.hmacHex
          (jsTrim phone ++ ":" ++ toString (now / TIME_WINDOW_MS) ++ ":" ++ cfg.secretKey)) 6 :=
    fun _ => rfl
  have esome : ∀ t now : Nat, t ≠ 0 → (OTPGenerator.generateOTP cfg phone (some t) now).otp
      = extractOTP (cfg.hmacHex
          (jsTrim phone ++ ":" ++ toString (t / TIME_WINDOW_MS) ++ ":" ++ cfg.secretKey)) 6 := by
    intro t now ht
    simp only [OTPGenerator.generateOTP, if_neg ht]
  constructor
  · intro now1 now2 hw
    rw [enone now1, enone now2, hw]
  · intro t1 t2 now1 now2 h1 h2 hw
    rw [esome t1 now1 h1, esome t2 now2 h2, hw]

set_option maxRecDepth 20000 in
/-- Witness for C6: two clock readings 60 seconds apart inside the same
5-minute window produce the same code for phoneA. -/
theorem derive_code_window_deterministic_witness :
    (1700000000000 / TIME_WINDOW_MS = 1700000060000 / TIME_WINDOW_MS)
    ∧ (OTPGenerator.generateOTP sampleCfg phoneA none 1700000000000).otp
        = (OTPGenerator.generateOTP sampleCfg phoneA none 1700000060000).otp :=
  ⟨by decide,
    (derive_code_window_deterministic sampleCfg phoneA).1 1700000000000 1700000060000 (by decide)⟩

theorem checkResendEligibility_blocked (phone : String) (now : Nat) (store : OtpStore)
    (d : OTPRecord) (h : store (generateRedisKey phone) = some d)
    (he : now < d.expiryTime) (ht : (now : Int) < (d.timestamp : Int) + 120000) :
    checkResendEligibility phone now store =
      ⟨false, (d.expiryTime - now) / 1000,
        max 0 (120000 - ((now : Int) - (d.timestamp : Int)))⟩ := by
  unfold checkResendEligibility
  rw [h]
  have hexp : ¬ d.expiryTime ≤ now := Nat.not_le.mpr he
  simp only [getRemainingTime, if_neg hexp]
  split
  next hcond => norm_num [OTP_CONFIG_RESEND_WAIT_MINUTES]
  next hcond =>
    exfalso
    apply hcond
    refine ⟨by simp, ?_⟩
    simp only [OTP_CONFIG_RESEND_WAIT_MINUTES]
    push_cast
    omega

theorem checkResendEligibility_allowed_iff (phone : String) (now : Nat) (store : OtpStore)
    (d : OTPRecord) (h : store (generateRedisKey phone) = some d) :
    (checkResendEligibility phone now store).allowed = true ↔
      (d.expiryTime ≤ now ∨ (d.timestamp : Int) + 120000 ≤ (now : Int)) := by
  unfold checkResendEligibility
  rw [h]
  by_cases he : d.expiryTime ≤ now
  · simp [getRemainingTime, he]
  · simp only [getRemainingTime, if_neg he]
    split
    next hcond =>
      simp only [OTP_CONFIG_RESEND_WAIT_MINUTES] at hcond
      constructor
      · intro hc; exact absurd hc (by simp)
      · intro hc
        rcases hc with hc | hc
        · exact absurd hc he
        · exfalso; omega
    next hcond =>
      simp only [OTP_CONFIG_RESEND_WAIT_MINUTES, not_and, not_lt] at hcond
      constructor
      · intro _
        right
        have := hcond (by simp [getRemainingTime, if_neg he])
        omega
      · intro _; rfl

/-- Claim C5 (amended): resend is allowed exactly when no record exists, the
record has reached its expiry time (now ≥ expiresAt), or AT LEAST the resend
wait (2 minutes) has elapsed since issuance — at exactly two minutes the code
already allows it.  When ineligible, resendOTP returns the too-early payload
carrying the record's remaining seconds; when eligible it behaves exactly as
sendOTP on the normalized number. -/
theorem resend_policy (cfg : OTPConfig) :
    (∀ (phone : String) (now : Nat) (store : OtpStore),
      store (generateRedisKey phone) = none →
      (checkResendEligibility phone now store).allowed = true)
  ∧ (∀ (phone : String) (now : Nat) (store : OtpStore) (d : OTPRecord),
      store (generateRedisKey phone) = some d →
      ((checkResendEligibility phone now store).allowed = true ↔
        (d.expiryTime ≤ now ∨ (d.timestamp : Int) + 120000 ≤ (now : Int))))
  ∧ (∀ (phoneRaw : String) (now : Nat) (store : OtpStore) (cc : CustomerCheck)
      (sms : SmsResult) (d : OTPRecord),
      phonePatternTest phoneRaw = true →
      store (generateRedisKey (svcNormalizePhone phoneRaw)) = some d →
      now < d.expiryTime → (now : Int) < (d.timestamp : Int) + 120000 →
      OTPService.resendOTP cfg phoneRaw now cc sms store =
        (.ok (.blocked ERR_OTP_TOO_EARLY_RESEND (svcNormalizePhone phoneRaw)
          ((d.expiryTime - now) / 1000)
          (max 0 (120000 - ((now : Int) - (d.timestamp : Int))))), store))
  ∧ (∀ (phoneRaw : String) (now : Nat) (store : OtpStore) (cc : CustomerCheck)
      (sms : SmsResult),
      phonePatternTest phoneRaw = true →
      (checkResendEligibility (svcNormalizePhone phoneRaw) now store).allowed = true →
      ((OTPService.resendOTP cfg phoneRaw now cc sms store).1
          = (OTPService.sendOTP cfg (svcNormalizePhone phoneRaw) now cc sms store).1.map
              ResendResponse.sent)
      ∧ ((OTPService.resendOTP cfg phoneRaw now cc sms store).2
          = (OTPService.sendOTP cfg (svcNormalizePhone phoneRaw) now cc sms store).2)) := by
  refine ⟨?_, ?_, ?_, ?_⟩
  · intro phone now store h
    simp [checkResendEligibility, h]
  · intro phone now store d h
    exact checkResendEligibility_allowed_iff phone now store d h
  · intro phoneRaw now store cc sms d hpat h he ht
    unfold OTPService.resendOTP
    rw [svcValidatePhoneNumber_of_pattern hpat]
    simp [checkResendEligibility_blocked (svcNormalizePhone phoneRaw) now store d h he ht]
  · intro phoneRaw now store cc sms hpat hallow
    unfold OTPService.resendOTP
    rw [svcValidatePhoneNumber_of_pattern hpat]
    simp only [hallow, not_true_eq_false, if_false, Bool.false_eq_true, ite_false]
    rcases hs : OTPService.sendOTP cfg (svcNormalizePhone phoneRaw) now cc sms store
      with ⟨r, st⟩
    cases r <;> simp [Except.map]

set_option maxRecDepth 20000 in
/-- Counterexample to C5 as stated: with a record issued at 1000000 and not
yet expired, at exactly two minutes after issuance (now = 1120000, not MORE
than two minutes) the code already allows the resend. -/
theorem resend_boundary_counterexample :
    stB (generateRedisKey phoneA) = some recB
    ∧ (checkResendEligibility phoneA 1120000 stB).allowed = true
    ∧ 1120000 < recB.expiryTime
    ∧ ¬ (recB.timestamp + 120000 < 1120000) := by
  refine ⟨by decide, ?_, by decide, by decide⟩
  decide

set_option maxRecDepth 20000 in
/-- Witness for C5: the blocked branch of resendOTP on the concrete store
stB, ninety seconds after issuance. -/
theorem resend_policy_witness :
    (phonePatternTest phoneA = true)
    ∧ (stB (generateRedisKey (svcNormalizePhone phoneA)) = some recB)
    ∧ (1090000 < recB.expiryTime)
    ∧ ((1090000 : Int) < (recB.timestamp : Int) + 120000)
    ∧ OTPService.resendOTP sampleCfg phoneA 1090000 ⟨false, none⟩ ⟨true, "ok"⟩ stB =
        (.ok (.blocked ERR_OTP_TOO_EARLY_RESEND (svcNormalizePhone phoneA)
          ((recB.expiryTime - 1090000) / 1000)
          (max 0 (120000 - ((1090000 : Int) - (recB.timestamp : Int))))), stB) :=
  ⟨by decide, by decide, by decide, by decide,
    (resend_policy sampleCfg).2.2.1 phoneA 1090000 stB ⟨false, none⟩ ⟨true, "ok"⟩ recB
      (by decide) (by decide) (by decide) (by decide)⟩

theorem containsSub_of_isPrefixOf {sub l : List Char} (h : sub.isPrefixOf l = true) :
    containsSub sub l = true := by
  cases l with
  | nil =>
    cases sub with
    | nil => rfl
    | cons c r => simp [List.isPrefixOf] at h
  | cons c r => simp [containsSub, h]

theorem sms_message_contains_sms (m : String) :
    containsSub "SMS".data ("SMS sending failed: " ++ m).data = true := by
  apply containsSub_of_isPrefixOf
  apply List.isPrefixOf_iff_prefix.mpr
  refine ⟨" sending failed: ".data ++ m.data, ?_⟩
  rw [String.data_append]
  rw [show ("SMS sending failed: ").data = "SMS".data ++ " sending failed: ".data by decide]
  rw [List.append_assoc]

/-- Claim C10: during sendOTP the fresh record is persisted before SMS
dispatch; on dispatch failure the call reports an error (the SMS service
error when the provider message does not mention Redis), the stored record
is not rolled back, and that fresh record keeps resend ineligible for the
whole resend-wait window. -/
theorem sendOTP_sms_failure_keeps_record (cfg : OTPConfig) (phoneRaw : String) (now : Nat)
    (cc : CustomerCheck) (sms : SmsResult) (otpStore : OtpStore)
    (hpat : phonePatternTest phoneRaw = true)
    (hsms : sms.success = false) :
    (∃ e, (OTPService.sendOTP cfg phoneRaw now cc sms otpStore).1 = .error e)
    ∧ (containsSub "Redis".data ("SMS sending failed: " ++ sms.message).data = false →
        (OTPService.sendOTP cfg phoneRaw now cc sms otpStore).1 = .error ERR_SMS_SERVICE)
    ∧ (OTPService.sendOTP cfg phoneRaw now cc sms otpStore).2
        (generateRedisKey (svcNormalizePhone phoneRaw))
        = some (OTPGenerator.generateOTP cfg (svcNormalizePhone phoneRaw) none now)
    ∧ (∀ now2 : Nat, now ≤ now2 → now2 < now + 120000 → 2 ≤ cfg.expiryMinutes →
        (checkResendEligibility (svcNormalizePhone phoneRaw) now2
            (OTPService.sendOTP cfg phoneRaw now cc sms otpStore).2).allowed = false
        ∧ ∀ (cc2 : CustomerCheck) (sms2 : SmsResult), ∃ rem : Nat, ∃ ra : Int,
            (OTPService.resendOTP cfg (svcNormalizePhone phoneRaw) now2 cc2 sms2
              (OTPService.sendOTP cfg phoneRaw now cc sms otpStore).2).1
              = .ok (.blocked ERR_OTP_TOO_EARLY_RESEND (svcNormalizePhone phoneRaw) rem ra)) := by
  have h0 : OTPService.sendOTP cfg phoneRaw now cc sms otpStore =
      (.error (handleOTPError ("SMS sending failed: " ++ sms.message)),
       setOtp otpStore (generateRedisKey (svcNormalizePhone phoneRaw))
         (OTPGenerator.generateOTP cfg (svcNormalizePhone phoneRaw) none now)) := by
    unfold OTPService.sendOTP
    rw [svcValidatePhoneNumber_of_pattern hpat]
    simp [hsms]
  rw [h0]
  have hts : (OTPGenerator.generateOTP cfg (svcNormalizePhone phoneRaw) none now).timestamp
      = now := rfl
  have hexp : (OTPGenerator.generateOTP cfg (svcNormalizePhone phoneRaw) none now).expiryTime
      = now + cfg.expiryMinutes * 60 * 1000 := rfl
  have hstored1 : (setOtp otpStore (generateRedisKey (svcNormalizePhone phoneRaw))
        (OTPGenerator.generateOTP cfg (svcNormalizePhone phoneRaw) none now))
      (generateRedisKey (svcNormalizePhone phoneRaw))
      = some (OTPGenerator.generateOTP cfg (svcNormalizePhone phoneRaw) none now) := by
    simp [setOtp]
  refine ⟨⟨_, rfl⟩, ?_, hstored1, ?_⟩
  · intro hredis
    have heq : handleOTPError ("SMS sending failed: " ++ sms.message) = ERR_SMS_SERVICE := by
      unfold handleOTPError
      rw [if_neg (by rw [hredis]; exact Bool.false_ne_true),
        if_pos (sms_message_contains_sms sms.message)]
    exact congrArg Except.error heq
  · intro now2 h1 h2 h3
    have hiff := checkResendEligibility_allowed_iff (svcNormalizePhone phoneRaw) now2 _ _ hstored1
    have hnoa : ¬ ((checkResendEligibility (svcNormalizePhone phoneRaw) now2
        (setOtp otpStore (generateRedisKey (svcNormalizePhone phoneRaw))
          (OTPGenerator.generateOTP cfg (svcNormalizePhone phoneRaw) none now))).allowed = true) := by
      rw [hiff, hts, hexp]
      push_neg
      constructor
      · have : now + 120000 ≤ now + cfg.expiryMinutes * 60 * 1000 := by
          have : 120000 ≤ cfg.expiryMinutes * 60 * 1000 := by
            calc 120000 = 2 * 60 * 1000 := by norm_num
            _ ≤ cfg.expiryMinutes * 60 * 1000 := by
                  exact Nat.mul_le_mul_right 1000 (Nat.mul_le_mul_right 60 h3)
          omega
        omega
      · omega
    constructor
    · exact Bool.not_eq_true _ ▸ hnoa
    · intro cc2 sms2
      have hstored2 : (setOtp otpStore (generateRedisKey (svcNormalizePhone phoneRaw))
            (OTPGenerator.generateOTP cfg (svcNormalizePhone phoneRaw) none now))
          (generateRedisKey (svcNormalizePhone (svcNormalizePhone phoneRaw)))
          = some (OTPGenerator.generateOTP cfg (svcNormalizePhone phoneRaw) none now) := by
        rw [svcNormalizePhone_idem hpat]; exact hstored1
      have hres := (resend_policy cfg).2.2.1 (svcNormalizePhone phoneRaw) now2
        (setOtp otpStore (generateRedisKey (svcNormalizePhone phoneRaw))
          (OTPGenerator.generateOTP cfg (svcNormalizePhone phoneRaw) none now)) cc2 sms2
        (OTPGenerator.generateOTP cfg (svcNormalizePhone phoneRaw) none now)
        (phonePatternTest_svcNormalize hpat) hstored2
        (by rw [hexp]; omega) (by rw [hts]; omega)
      rw [svcNormalizePhone_idem hpat] at hres
      refine ⟨((OTPGenerator.generateOTP cfg (svcNormalizePhone phoneRaw) none now).expiryTime
          - now2) / 1000,
        max 0 (120000 - ((now2 : Int)
          - ((OTPGenerator.generateOTP cfg (svcNormalizePhone phoneRaw) none now).timestamp
            : Int))), ?_⟩
      show (OTPService.resendOTP cfg (svcNormalizePhone phoneRaw) now2 cc2 sms2
          (setOtp otpStore (generateRedisKey (svcNormalizePhone phoneRaw))
            (OTPGenerator.generateOTP cfg (svcNormalizePhone phoneRaw) none now))).1 = _
      rw [hres]

set_option maxRecDepth 20000 in
/-- Witness for C10: a failed dispatch ("provider down") on an empty store
still leaves the freshly generated record stored under phoneA's key. -/
theorem sendOTP_sms_failure_keeps_record_witness :
    (phonePatternTest phoneA = true)
    ∧ ((⟨false, "provider down"⟩ : SmsResult).success = false)
    ∧ (∃ e, (OTPService.sendOTP sampleCfg phoneA 1700000000000 ⟨false, none⟩
        ⟨false, "provider down"⟩ (fun _ => none)).1 = .error e)
    ∧ ((OTPService.sendOTP sampleCfg phoneA 1700000000000 ⟨false, none⟩
        ⟨false, "provider down"⟩ (fun _ => none)).2
        (generateRedisKey (svcNormalizePhone phoneA))
        = some (OTPGenerator.generateOTP sampleCfg (svcNormalizePhone phoneA) none
            1700000000000)) :=
  ⟨by decide, by decide,
    (sendOTP_sms_failure_keeps_record sampleCfg phoneA 1700000000000 ⟨false, none⟩
      ⟨false, "provider down"⟩ (fun _ => none) (by decide) (by decide)).1,
    (sendOTP_sms_failure_keeps_record sampleCfg phoneA 1700000000000 ⟨false, none⟩
      ⟨false, "provider down"⟩ (fun _ => none) (by decide) (by decide)).2.2.1⟩

/-- Claim C9 (amended): consumption is NOT atomic — the service issues a
separate store get and a separate store delete (whose boolean result it
ignores), so under the get-get-delete-delete interleaving two concurrent
verify calls presenting the same correct code BOTH succeed on one record,
while the same two calls run sequentially have the second fail not-found. -/
theorem verify_consumption_not_atomic (cfg : OTPConfig) (phoneRaw : String) (now : Nat)
    (otpStore : OtpStore) (custStore : CustStore) (d : OTPRecord)
    (hpat : phonePatternTest phoneRaw = true)
    (hstored : otpStore (generateRedisKey (svcNormalizePhone phoneRaw)) = some d)
    (hphone : d.phoneNumber = svcNormalizePhone phoneRaw)
    (hotp6 : otpPatternTest d.otp = true)
    (hlive : now ≤ d.expiryTime)
    (hhash : cfg.hmacHex (verificationData d.phoneNumber d.otp d.timestamp d.expiryTime)
      = d.verificationHash) :
    (∃ rA rB : VerifyResponse,
      (interleavedDoubleVerify cfg phoneRaw d.otp now otpStore custStore).1 = .ok rA
      ∧ (interleavedDoubleVerify cfg phoneRaw d.otp now otpStore custStore).2.1 = .ok rB
      ∧ rA.success = true ∧ rB.success = true)
  ∧ (∃ rB2 : VerifyResponse,
      (sequentialDoubleVerify cfg phoneRaw d.otp now otpStore custStore).2.1 = .ok rB2
      ∧ rB2.success = false ∧ rB2.message = ERR_OTP_NOT_FOUND) := by
  have hcore : verifyCore cfg (svcNormalizePhone phoneRaw) d.otp now (some d) custStore
      = ({ success := true, message := MSG_OTP_VERIFIED_SVC,
           phoneNumber := svcNormalizePhone phoneRaw, verified := true, expired := false,
           customer := custStore (generateCustomerDataKey (svcNormalizePhone phoneRaw)) },
         true) := by
    rw [hphone] at hhash
    simp [verifyCore, OTPGenerator.verifyOTP, Nat.not_lt.mpr hlive, hphone, hhash]
  constructor
  · have hint : interleavedDoubleVerify cfg phoneRaw d.otp now otpStore custStore
        = (.ok { success := true, message := MSG_OTP_VERIFIED_SVC,
                 phoneNumber := svcNormalizePhone phoneRaw, verified := true, expired := false,
                 customer := custStore (generateCustomerDataKey (svcNormalizePhone phoneRaw)) },
           .ok { success := true, message := MSG_OTP_VERIFIED_SVC,
                 phoneNumber := svcNormalizePhone phoneRaw, verified := true, expired := false,
                 customer := custStore (generateCustomerDataKey (svcNormalizePhone phoneRaw)) },
           deleteOtp (deleteOtp otpStore (generateRedisKey (svcNormalizePhone phoneRaw)))
             (generateRedisKey (svcNormalizePhone phoneRaw))) := by
      unfold interleavedDoubleVerify
      rw [svcValidatePhoneNumber_of_pattern hpat, svcValidateOTP_of_pattern hotp6]
      simp [hstored, hcore]
    rw [hint]
    exact ⟨_, _, rfl, rfl, rfl, rfl⟩
  · have h1 := verifyOTP_success cfg phoneRaw now otpStore custStore d
      hpat hstored hphone hotp6 hlive hhash
    have h2 := verifyOTP_notFound cfg phoneRaw d.otp now
      (deleteOtp otpStore (generateRedisKey (svcNormalizePhone phoneRaw))) custStore hpat hotp6
      (by simp [deleteOtp])
    have hseq : (sequentialDoubleVerify cfg phoneRaw d.otp now otpStore custStore).2.1
        = .ok { success := false, message := ERR_OTP_NOT_FOUND,
                phoneNumber := svcNormalizePhone phoneRaw, verified := false, expired := true,
                customer := none } := by
      unfold sequentialDoubleVerify
      simp only [h1, h2]
    exact ⟨_, hseq, rfl, rfl⟩

set_option maxRecDepth 20000 in
/-- Counterexample to C9 as stated: on the concrete live record for phoneA,
the get-get-delete-delete interleaving lets BOTH concurrent verify calls with
the correct code succeed. -/
theorem verify_double_acceptance_counterexample :
    ((interleavedDoubleVerify sampleCfg phoneA "551547" 1700000000001 stA custEmpty).1.toOption.map
        (fun r => r.success) = some true)
    ∧ ((interleavedDoubleVerify sampleCfg phoneA "551547" 1700000000001 stA
        custEmpty).2.1.toOption.map (fun r => r.success) = some true) := by
  constructor
  · decide
  · decide

set_option maxRecDepth 20000 in
/-- Witness for C9 (amended) at the concrete sample record. -/
theorem verify_consumption_not_atomic_witness :
    (phonePatternTest phoneA = true)
    ∧ (stA (generateRedisKey (svcNormalizePhone phoneA)) = some recA)
    ∧ (recA.phoneNumber = svcNormalizePhone phoneA)
    ∧ (otpPatternTest recA.otp = true)
    ∧ (1700000000001 ≤ recA.expiryTime)
    ∧ (sampleCfg.hmacHex (verificationData recA.phoneNumber recA.otp recA.timestamp
        recA.expiryTime) = recA.verificationHash)
    ∧ ((∃ rA rB : VerifyResponse,
        (interleavedDoubleVerify sampleCfg phoneA recA.otp 1700000000001 stA custEmpty).1 = .ok rA
        ∧ (interleavedDoubleVerify sampleCfg phoneA recA.otp 1700000000001 stA
            custEmpty).2.1 = .ok rB
        ∧ rA.success = true ∧ rB.success = true)
      ∧ (∃ rB2 : VerifyResponse,
        (sequentialDoubleVerify sampleCfg phoneA recA.otp 1700000000001 stA custEmpty).2.1
          = .ok rB2
        ∧ rB2.success = false ∧ rB2.message = ERR_OTP_NOT_FOUND)) :=
  ⟨by decide, by decide, by decide, by decide, by decide, by decide,
    verify_consumption_not_atomic sampleCfg phoneA 1700000000001 stA custEmpty recA
      (by decide) (by decide) (by decide) (by decide) (by decide) (by decide)⟩

theorem verifyTokenIntegrity_none (hmacHex : String → String) (token : String) :
    verifyTokenIntegrity hmacHex token none = false := by
  unfold verifyTokenIntegrity
  simp only []
  split
  next => simp
  next => rfl

/-- Claim C7: loading a stored, not-yet-used LoginToken whose expiryTime lies
in the past.  The source's expiry branch calls `redisClient.del`, a method
the Redis wrapper does not define, so the TypeError lands in the outer catch:
the call returns the generic VERIFICATION_ERROR — not TOKEN_EXPIRED — and the
record is NOT deleted. -/
theorem expired_login_token_error (hmacHex : String → String) (token : String)
    (now : Nat) (store : LinkStore) (d : LinkData)
    (hstored : store (loginLinkKey token) = some (.objVal d))
    (hunused : d.used = false)
    (hexpired : d.expiryTime < now) :
    verifyLoginToken hmacHex token now store = (linkCaughtError, store)
    ∧ (verifyLoginToken hmacHex token now store).1.error = some ERR_VERIFICATION_ERROR
    ∧ (verifyLoginToken hmacHex token now store).1.error ≠ some ERR_TOKEN_EXPIRED
    ∧ (verifyLoginToken hmacHex token now store).2 (loginLinkKey token) = some (.objVal d) := by
  have hmain : verifyLoginToken hmacHex token now store = (linkCaughtError, store) := by
    unfold verifyLoginToken
    simp only []
    rw [hstored]
    simp [RedisVal.usedField, RedisVal.expiryField, hunused, jsNowGt, hexpired]
  refine ⟨hmain, ?_, ?_, ?_⟩
  · rw [hmain]; rfl
  · rw [hmain]
    simp [linkCaughtError, ERR_VERIFICATION_ERROR, ERR_TOKEN_EXPIRED]
  · rw [hmain]; exact hstored

set_option maxRecDepth 20000 in
/-- Witness for C7: the concrete expired unused record for tokenA at time
200 (its expiryTime is 100). -/
theorem expired_login_token_error_witness :
    (lstExpired (loginLinkKey tokenA) = some (.objVal dExpired))
    ∧ (dExpired.used = false)
    ∧ (dExpired.expiryTime < 200)
    ∧ (verifyLoginToken sampleHmac tokenA 200 lstExpired = (linkCaughtError, lstExpired)
      ∧ (verifyLoginToken sampleHmac tokenA 200 lstExpired).1.error
          = some ERR_VERIFICATION_ERROR
      ∧ (verifyLoginToken sampleHmac tokenA 200 lstExpired).1.error ≠ some ERR_TOKEN_EXPIRED
      ∧ (verifyLoginToken sampleHmac tokenA 200 lstExpired).2 (loginLinkKey tokenA)
          = some (.objVal dExpired)) :=
  ⟨by decide, by decide, by decide,
    expired_login_token_error sampleHmac tokenA 200 lstExpired dExpired
      (by decide) (by decide) (by decide)⟩

/-- Claim C2: what a second verify sees after a first verify consumed a
token.  The first call marks the token used and re-stores it — but it passes
JSON.stringify(linkData) to RedisClient.set, which stringifies again, so the
store now holds a string; every later verify reads a string whose `used`
field is undefined and fails TOKEN_INTEGRITY_FAILED, never
TOKEN_ALREADY_USED. -/
theorem used_token_not_reported_already_used (hmacHex : String → String) (token : String)
    (now1 now2 : Nat) (store : LinkStore) (d : LinkData)
    (hstored : store (loginLinkKey token) = some (.objVal d))
    (hunused : d.used = false)
    (hlive : ¬ d.expiryTime < now1)
    (hint : verifyTokenIntegrity hmacHex token (some d.email) = true) :
    ((verifyLoginToken hmacHex token now1 store).2 (loginLinkKey token)
      = some (.strVal (stringifyLinkData
          { d with used := true, attempts := d.attempts + 1, usedAt := some now1 })))
    ∧ (verifyLoginToken hmacHex token now2
        (verifyLoginToken hmacHex token now1 store).2).1.error
        = some ERR_TOKEN_INTEGRITY_FAILED
    ∧ (verifyLoginToken hmacHex token now2
        (verifyLoginToken hmacHex token now1 store).2).1.error
        ≠ some ERR_TOKEN_ALREADY_USED := by
  have h1 : verifyLoginToken hmacHex token now1 store
      = (linkCaughtError,
         setLink store (loginLinkKey token)
           (.strVal (stringifyLinkData
             { d with used := true, attempts := d.attempts + 1, usedAt := some now1 }))) := by
    unfold verifyLoginToken
    simp only []
    rw [hstored]
    simp [RedisVal.usedField, RedisVal.expiryField, RedisVal.emailField, hunused, jsNowGt,
      hlive, hint]
  have hkey1 : (verifyLoginToken hmacHex token now1 store).2 (loginLinkKey token)
      = some (.strVal (stringifyLinkData
          { d with used := true, attempts := d.attempts + 1, usedAt := some now1 })) := by
    rw [h1]; simp [setLink]
  have h2 : (verifyLoginToken hmacHex token now2
      (setLink store (loginLinkKey token)
        (.strVal (stringifyLinkData
          { d with used := true, attempts := d.attempts + 1, usedAt := some now1 })))).1
      = ⟨false, "Invalid login token", some ERR_TOKEN_INTEGRITY_FAILED⟩ := by
    unfold verifyLoginToken
    simp only []
    rw [show (setLink store (loginLinkKey token)
        (.strVal (stringifyLinkData
          { d with used := true, attempts := d.attempts + 1, usedAt := some now1 })))
        (loginLinkKey token)
        = some (.strVal (stringifyLinkData
          { d with used := true, attempts := d.attempts + 1, usedAt := some now1 }))
      by simp [setLink]]
    simp [RedisVal.usedField, RedisVal.expiryField, RedisVal.emailField, jsNowGt,
      verifyTokenIntegrity_none]
  have h2' : (verifyLoginToken hmacHex token now2
      (verifyLoginToken hmacHex token now1 store).2).1
      = ⟨false, "Invalid login token", some ERR_TOKEN_INTEGRITY_FAILED⟩ := by
    rw [h1]
    exact h2
  refine ⟨hkey1, ?_, ?_⟩
  · rw [h2']
  · rw [h2']
    simp [ERR_TOKEN_INTEGRITY_FAILED, ERR_TOKEN_ALREADY_USED]

set_option maxRecDepth 40000 in
/-- Witness for C2: the concrete fresh token tokenA in lstA, verified at
time 2000 and again at time 2500. -/
theorem used_token_not_reported_already_used_witness :
    (lstA (loginLinkKey tokenA) = some (.objVal dA))
    ∧ (dA.used = false)
    ∧ (¬ dA.expiryTime < 2000)
    ∧ (verifyTokenIntegrity sampleHmac tokenA (some dA.email) = true)
    ∧ (((verifyLoginToken sampleHmac tokenA 2000 lstA).2 (loginLinkKey tokenA)
        = some (.strVal (stringifyLinkData
            { dA with used := true, attempts := dA.attempts + 1, usedAt := some 2000 })))
      ∧ (verifyLoginToken sampleHmac tokenA 2500
          (verifyLoginToken sampleHmac tokenA 2000 lstA).2).1.error
          = some ERR_TOKEN_INTEGRITY_FAILED
      ∧ (verifyLoginToken sampleHmac tokenA 2500
          (verifyLoginToken sampleHmac tokenA 2000 lstA).2).1.error
          ≠ some ERR_TOKEN_ALREADY_USED) :=
  ⟨by decide, by decide, by decide, by decide,
    used_token_not_reported_already_used sampleHmac tokenA 2000 2500 lstA dA
      (by decide) (by decide) (by decide) (by decide)⟩

theorem validateNormalized_iff (m : List Char) :
    (validateNormalizedNumberL ('+' :: '8' :: '8' :: '0' :: m)).isValid = true
      ↔ mobileOkB m = true := by
  unfold validateNormalizedNumberL mobileOkB
  by_cases hl : m.length = 10
  · by_cases hp : ['1'] <+: m
    · by_cases hd : ∀ x ∈ m, isDigitChar x = true
      · have hd2 : ¬ ∃ x, x ∈ m ∧ isDigitChar x = false := by
          rintro ⟨x, hx, hfx⟩
          rw [hd x hx] at hfx
          cases hfx
        simp [hl, hp, hd2]
        exact hd
      · have hd2 : ∃ x, x ∈ m ∧ isDigitChar x = false := by
          push_neg at hd
          obtain ⟨x, hx, hfx⟩ := hd
          exact ⟨x, hx, by simpa using hfx⟩
        simp [hl, hp, hd2, hd]
    · simp [hl, hp]
  · simp [hl]

theorem isPrefixOf_ex {p l : List Char} : p.isPrefixOf l = true ↔ ∃ t, l = p ++ t := by
  rw [List.isPrefixOf_iff_prefix]
  constructor
  · rintro ⟨t, ht⟩; exact ⟨t, ht.symm⟩
  · rintro ⟨t, rfl⟩; exact ⟨t, rfl⟩

theorem one_prefix_iff {m : List Char} : ['1'] <+: m ↔ ∃ t, m = '1' :: t := by
  constructor
  · rintro ⟨t, rfl⟩; exact ⟨t, rfl⟩
  · rintro ⟨t, rfl⟩; exact ⟨t, rfl⟩

theorem mobileOkB_iff (m : List Char) : mobileOkB m = true ↔
    m.length = 10 ∧ (∀ x ∈ m, isDigitChar x = true) ∧ ∃ t, m = '1' :: t := by
  unfold mobileOkB
  simp [List.all_eq_true, one_prefix_iff]
  tauto

theorem and_true_split {a b : Bool} (h : (a && b) = true) : a = true ∧ b = true := by
  simp only [Bool.and_eq_true] at h
  exact h

theorem and_true_join {a b : Bool} (ha : a = true) (hb : b = true) : (a && b) = true := by
  simp [ha, hb]

theorem normThenValidate_iff (cs : List Char) :
    normThenValidate cs = true ↔
      ∃ m : List Char, mobileOkB m = true ∧
        (stripPlusL cs = '0' :: m ∨ stripPlusL cs = '8' :: '8' :: '0' :: m
          ∨ stripPlusL cs = m) := by
  cases cs with
  | nil =>
    constructor
    · intro h; exact absurd h (by decide)
    · rintro ⟨m, hm, h | h | h⟩
      · exact absurd h (by simp [stripPlusL])
      · exact absurd h (by simp [stripPlusL])
      · rw [show stripPlusL [] = [] from rfl] at h
        rw [← h] at hm
        exact absurd hm (by decide)
  | cons c cs' =>
    unfold normThenValidate normalizeToInternationalL
    simp only []
    set number := stripPlusL (c :: cs') with hnum
    by_cases h1 : ("880".data.isPrefixOf number && number.length == 13) = true
    · rw [if_pos h1]
      simp only []
      obtain ⟨hpre, hlen⟩ := and_true_split h1
      obtain ⟨t, ht⟩ := isPrefixOf_ex.mp hpre
      have ht2 : number = '8' :: '8' :: '0' :: t := by simpa using ht
      have hlen2 : t.length = 10 := by
        have h13 : number.length = 13 := by simpa using hlen
        rw [ht2] at h13
        simpa using h13
      rw [ht2]
      rw [validateNormalized_iff t]
      constructor
      · intro hmt; exact ⟨t, hmt, Or.inr (Or.inl rfl)⟩
      · rintro ⟨m, hm, hc | hc | hc⟩
        · simp at hc
        · obtain rfl : t = m := by simpa using hc
          exact hm
        · obtain ⟨_, _, u, rfl⟩ := (mobileOkB_iff m).mp hm
          simp at hc
    · by_cases h2 : ("01".data.isPrefixOf number && number.length == 11) = true
      · rw [if_neg h1, if_pos h2]
        simp only []
        obtain ⟨hpre, hlen⟩ := and_true_split h2
        obtain ⟨t, ht⟩ := isPrefixOf_ex.mp hpre
        have ht2 : number = '0' :: '1' :: t := by simpa using ht
        rw [ht2]
        rw [show "+880".data ++ ('0' :: '1' :: t).tail = '+' :: '8' :: '8' :: '0' :: ('1' :: t)
          from rfl]
        rw [validateNormalized_iff ('1' :: t)]
        constructor
        · intro hm; exact ⟨'1' :: t, hm, Or.inl rfl⟩
        · rintro ⟨m, hm, hc | hc | hc⟩
          · obtain rfl : '1' :: t = m := by simpa using hc
            exact hm
          · simp at hc
          · obtain ⟨_, _, u, rfl⟩ := (mobileOkB_iff m).mp hm
            simp at hc
      · by_cases h3 : ("+880".data.isPrefixOf (c :: cs') && (c :: cs').length == 14) = true
        · exfalso
          apply h1
          obtain ⟨hpre, hlen⟩ := and_true_split h3
          obtain ⟨t, ht⟩ := isPrefixOf_ex.mp hpre
          have ht2 : c :: cs' = '+' :: '8' :: '8' :: '0' :: t := by simpa using ht
          have hnum2 : number = '8' :: '8' :: '0' :: t := by
            rw [hnum, ht2]
            rfl
          have hlen2 : t.length = 10 := by
            have h14 : (c :: cs').length = 14 := by simpa using hlen
            rw [ht2] at h14
            simpa using h14
          rw [hnum2]
          apply and_true_join
          · exact isPrefixOf_ex.mpr ⟨t, by simp⟩
          · simp [hlen2]
        · by_cases h4 : (number.length == 10 && "1".data.isPrefixOf number) = true
          · rw [if_neg h1, if_neg h2, if_neg h3, if_pos h4]
            simp only []
            obtain ⟨hlen, hpre⟩ := and_true_split h4
            obtain ⟨t, ht⟩ := isPrefixOf_ex.mp hpre
            have ht2 : number = '1' :: t := by simpa using ht
            rw [ht2]
            rw [show "+880".data ++ ('1' :: t) = '+' :: '8' :: '8' :: '0' :: ('1' :: t) from rfl]
            rw [validateNormalized_iff ('1' :: t)]
            constructor
            · intro hm; exact ⟨'1' :: t, hm, Or.inr (Or.inr rfl)⟩
            · rintro ⟨m, hm, hc | hc | hc⟩
              · simp at hc
              · simp at hc
              · rw [← hc] at hm
                exact hm
          · rw [if_neg h1, if_neg h2, if_neg h3, if_neg h4]
            simp only []
            constructor
            · intro h; cases h
            · rintro ⟨m, hm, hc | hc | hc⟩
              · exfalso
                apply h2
                obtain ⟨hl10, hdig, u, rfl⟩ := (mobileOkB_iff m).mp hm
                have hu9 : u.length = 9 := by simpa using hl10
                apply and_true_join
                · exact isPrefixOf_ex.mpr ⟨u, by simpa using hc⟩
                · rw [hc]; simp [hu9]
              · exfalso
                apply h1
                obtain ⟨hl10, hdig, u, rfl⟩ := (mobileOkB_iff m).mp hm
                have hu9 : u.length = 9 := by simpa using hl10
                apply and_true_join
                · exact isPrefixOf_ex.mpr ⟨'1' :: u, by simpa using hc⟩
                · rw [hc]; simp [hu9]
              · exfalso
                apply h4
                obtain ⟨hl10, hdig, u, rfl⟩ := (mobileOkB_iff m).mp hm
                apply and_true_join
                · rw [hc]; simp [hl10]
                · exact isPrefixOf_ex.mpr ⟨u, by simpa using hc⟩

theorem canonical_of_valid {m : List Char}
    (hv : (validateNormalizedNumberL ('+' :: '8' :: '8' :: '0' :: m)).isValid = true) :
    isCanonicalBD ('+' :: '8' :: '8' :: '0' :: m) = true := by
  unfold isCanonicalBD
  exact (validateNormalized_iff m).mp hv

theorem normalize_output_canonical (cs n : List Char)
    (hn : normalizeToInternationalL cs = some n)
    (hv : (validateNormalizedNumberL n).isValid = true) : isCanonicalBD n = true := by
  unfold normalizeToInternationalL at hn
  cases cs with
  | nil => cases hn
  | cons c cs' =>
    simp only [] at hn
    set number := stripPlusL (c :: cs') with hnum
    by_cases h1 : ("880".data.isPrefixOf number && number.length == 13) = true
    · rw [if_pos h1] at hn
      obtain ⟨hpre, _⟩ := and_true_split h1
      obtain ⟨t, ht⟩ := isPrefixOf_ex.mp hpre
      have ht2 : number = '8' :: '8' :: '0' :: t := by simpa using ht
      obtain rfl : '+' :: number = n := by injection hn
      rw [ht2] at hv ⊢
      exact canonical_of_valid hv
    · rw [if_neg h1] at hn
      by_cases h2 : ("01".data.isPrefixOf number && number.length == 11) = true
      · rw [if_pos h2] at hn
        obtain ⟨hpre, _⟩ := and_true_split h2
        obtain ⟨t, ht⟩ := isPrefixOf_ex.mp hpre
        have ht2 : number = '0' :: '1' :: t := by simpa using ht
        obtain rfl : "+880".data ++ number.tail = n := by injection hn
        rw [ht2] at hv ⊢
        exact canonical_of_valid hv
      · rw [if_neg h2] at hn
        by_cases h3 : ("+880".data.isPrefixOf (c :: cs') && (c :: cs').length == 14) = true
        · rw [if_pos h3] at hn
          obtain ⟨hpre, _⟩ := and_true_split h3
          obtain ⟨t, ht⟩ := isPrefixOf_ex.mp hpre
          have ht2 : c :: cs' = '+' :: '8' :: '8' :: '0' :: t := by simpa using ht
          obtain rfl : c :: cs' = n := by injection hn
          rw [ht2] at hv ⊢
          exact canonical_of_valid hv
        · rw [if_neg h3] at hn
          by_cases h4 : (number.length == 10 && "1".data.isPrefixOf number) = true
          · rw [if_pos h4] at hn
            obtain rfl : "+880".data ++ number = n := by injection hn
            exact canonical_of_valid hv
          · rw [if_neg h4] at hn
            cases hn

theorem validate_isValid_iff (s : String) :
    (PhoneValidator.validate s).isValid = true ↔
      (jsTrim s ≠ "" ∧ (jsTrim s).length ≤ 20
        ∧ normThenValidate (cleanPhone (jsTrim s)).data = true) := by
  unfold PhoneValidator.validate
  by_cases he : jsTrim s = ""
  · simp [he]
  · by_cases hl : 20 < (jsTrim s).length
    · simp [he, hl]
    · by_cases hc : cleanPhone (jsTrim s) = ""
      · simp [he, hl, hc]
        intro _
        decide
      · simp only [if_neg he, if_neg hl, if_neg hc]
        unfold normThenValidate PhoneValidator.normalizeToInternational
        cases hq : normalizeToInternationalL (cleanPhone (jsTrim s)).data with
        | none => simp [hq, he, hl]
        | some l =>
          simp [hq, he, hl]
          intro _
          omega

theorem validate_normalized_canonical (s n : String)
    (h : (PhoneValidator.validate s).normalizedNumber = some n) :
    isCanonicalBD n.data = true := by
  unfold PhoneValidator.validate at h
  by_cases he : jsTrim s = ""
  · rw [if_pos he] at h; cases h
  · rw [if_neg he] at h
    by_cases hl : 20 < (jsTrim s).length
    · rw [if_pos hl] at h; cases h
    · rw [if_neg hl] at h
      by_cases hc : cleanPhone (jsTrim s) = ""
      · rw [if_pos hc] at h; cases h
      · rw [if_neg hc] at h
        unfold PhoneValidator.normalizeToInternational at h
        cases hq : normalizeToInternationalL (cleanPhone (jsTrim s)).data with
        | none =>
          rw [hq] at h
          simp at h
        | some l =>
          rw [hq] at h
          simp only [Option.map_some'] at h
          by_cases hv : (validateNormalizedNumberL (⟨l⟩ : String).data).isValid = true
          · rw [if_pos hv] at h
            obtain rfl : (⟨l⟩ : String) = n := by injection h
            exact normalize_output_canonical (cleanPhone (jsTrim s)).data l hq hv
          · rw [if_neg hv] at h
            cases h

/-- Claim C8 (amended): after trimming and stripping non-digit/non-plus
characters, the validator accepts exactly the national (0 + mobile),
country-code (880 + mobile), international (+ before either), and BARE
ten-digit mobile (1XXXXXXXXX) forms — one form more than the three the
claim lists — and every accepted input normalizes to '+880' followed by
exactly ten digits whose first digit is 1. -/
theorem phone_normalization_characterization :
    (∀ s : String, (PhoneValidator.validate s).isValid = true ↔
      (jsTrim s ≠ "" ∧ (jsTrim s).length ≤ 20 ∧
        ∃ m : List Char, mobileOkB m = true ∧
          (stripPlusL (cleanPhone (jsTrim s)).data = '0' :: m
            ∨ stripPlusL (cleanPhone (jsTrim s)).data = '8' :: '8' :: '0' :: m
            ∨ stripPlusL (cleanPhone (jsTrim s)).data = m)))
  ∧ (∀ s n : String, (PhoneValidator.validate s).normalizedNumber = some n →
      isCanonicalBD n.data = true) := by
  constructor
  · intro s
    rw [validate_isValid_iff s, normThenValidate_iff]
  · exact validate_normalized_canonical

theorem phone_normalization_counterexample :
    ((PhoneValidator.validate "1712345678").isValid = true)
    ∧ ((PhoneValidator.validate "1712345678").normalizedNumber = some "+8801712345678")
    ∧ ("0".data.isPrefixOf "1712345678".data = false)
    ∧ ("880".data.isPrefixOf "1712345678".data = false)
    ∧ ("+880".data.isPrefixOf "1712345678".data = false) := by
  refine ⟨?_, ?_, by decide, by decide, by decide⟩
  · decide
  · decide

theorem phone_normalization_characterization_witness :
    ((PhoneValidator.validate "01712345678").normalizedNumber = some "+8801712345678")
    ∧ isCanonicalBD ("+8801712345678" : String).data = true :=
  ⟨by decide,
    phone_normalization_characterization.2 "01712345678" "+8801712345678" (by decide)⟩
